import Mathlib

/-!
# joystick-mapper: a shallow embedding of `main.c`

The program locates an evdev joystick by a glob on its reported name, creates a
uinput keyboard and turns three-position axis samples into arrow-key presses and
releases.  The embedding below follows `main.c` function by function.  The
operating system is represented by an `Env` (what every system call answers) and
a `World` (what the program has done to the system so far).
-/

namespace JsMapper

/-! ## Constants of the Linux input headers -/

/-- Event type `EV_SYN` of `linux/input-event-codes.h`. -/
def EV_SYN : Int := 0

/-- Event type `EV_KEY` of `linux/input-event-codes.h`. -/
def EV_KEY : Int := 1

/-- Event type `EV_ABS` of `linux/input-event-codes.h`. -/
def EV_ABS : Int := 3

/-- Synchronisation code `SYN_REPORT`. -/
def SYN_REPORT : Int := 0

/-- Absolute axis `ABS_X`. -/
def ABS_X : Int := 0

/-- Absolute axis `ABS_Y`. -/
def ABS_Y : Int := 1

/-- Key code `KEY_UP`. -/
def KEY_UP : Int := 103

/-- Key code `KEY_LEFT`. -/
def KEY_LEFT : Int := 105

/-- Key code `KEY_RIGHT`. -/
def KEY_RIGHT : Int := 106

/-- Key code `KEY_DOWN`. -/
def KEY_DOWN : Int := 108

/-- Directory entry type `DT_CHR` of `dirent.h`. -/
def DT_CHR : Int := 2

/-- Bus type `BUS_USB` of `linux/input.h`. -/
def BUS_USB : Int := 3

/-- The macro `USB_VENDOR` of `main.c`. -/
def USB_VENDOR : Int := 0x00DD

/-- The macro `USB_PRODUCT` of `main.c`. -/
def USB_PRODUCT : Int := 0x0001

/-- The macro `USB_VERSION` of `main.c`. -/
def USB_VERSION : Int := 1

/-- Exit status `EXIT_SUCCESS` of `stdlib.h`. -/
def EXIT_SUCCESS : Int := 0

/-- Exit status `EXIT_FAILURE` of `stdlib.h`. -/
def EXIT_FAILURE : Int := 1

/-! ## Data -/

/-- The three fields of `struct input_event` the program uses (`type` and `code`
are `__u16`, `value` is `__s32`; the timestamp is never looked at). -/
structure input_event where
  type : Int
  code : Int
  value : Int
deriving DecidableEq

/-- The fields of `struct uinput_setup` that `setup_uinput_device` fills in. -/
structure uinput_setup where
  name : String
  bustype : Int
  vendor : Int
  product : Int
  version : Int
deriving DecidableEq

/-- One entry of `/dev/input` as `readdir` delivers it, together with what the
system answers when the program opens the entry and asks for the device name:
`open_result` is the value of `open(device_path, O_RDONLY)` (negative on failure)
and `name_reply` is the string `EVIOCGNAME` stores in the caller's buffer
(`none` when that ioctl fails and leaves the buffer as it was). -/
structure DirEntry where
  d_type : Int
  d_name : String
  open_result : Int
  name_reply : Option String
deriving DecidableEq

/-- The control requests the program sends to the uinput descriptor. -/
inductive IoctlReq where
  | UI_SET_EVBIT (ev : Int)
  | UI_SET_KEYBIT (key : Int)
  | UI_DEV_SETUP (usetup : uinput_setup)
  | UI_DEV_CREATE
  | UI_DEV_DESTROY
deriving DecidableEq

/-- A line on standard error: either `perror(msg)` (the text of `errno` that the C
library appends is left out) or text printed with `fprintf`. -/
inductive ErrLine where
  | perror (msg : String)
  | text (s : String)
deriving DecidableEq

/-- Answers of the operating system and of the C library, and the indeterminate
initial contents of the automatic variables the program reads before writing. -/
structure Env where
  /-- the C library function `fnmatch(pattern, string, flags)` -/
  fnmatch : String → String → Int → Int
  /-- result of `opendir("/dev/input")`: `none` when it fails, otherwise what `readdir` lists -/
  dev_input : Option (List DirEntry)
  /-- initial contents of the buffer `name` of `find_joystick_device` -/
  name_init : String
  /-- value of `open("/dev/uinput", O_WRONLY | O_NONBLOCK)` -/
  uinput_open : Int
  /-- value of `ioctl(fd, request, ...)` for the uinput requests -/
  ioctl : Int → IoctlReq → Int
  /-- results of the successive `read` calls on the joystick; `none` is a negative
  return value, `some ev` a read that stored `ev` -/
  reads : List (Option input_event)
  /-- whether the `write` that follows `n` earlier writes returns a non-negative value -/
  write_ok : Nat → Bool
  /-- initial contents of `last_x_key` -/
  last_x_init : Int
  /-- initial contents of `last_y_key` -/
  last_y_init : Int

/-- What the program has done to the system. -/
structure World where
  /-- descriptors opened by the program and not closed, most recent first -/
  open_fds : List Int
  /-- descriptors passed to `close`, oldest first -/
  closed_fds : List Int
  /-- whether the directory stream on `/dev/input` is open -/
  dir_open : Bool
  /-- number of `open("/dev/uinput", ...)` calls made -/
  uinput_opens : Nat
  /-- every uinput request issued, whatever its result, oldest first -/
  requests : List IoctlReq
  /-- event types enabled on the uinput descriptor -/
  evbits : List Int
  /-- key codes registered on the uinput descriptor -/
  keybits : List Int
  /-- identity given to the uinput device -/
  setup : Option uinput_setup
  /-- whether the virtual device currently exists -/
  device_created : Bool
  /-- every event written, with the descriptor it was written to, oldest first -/
  written : List (Int × input_event)
  /-- number of `read` calls made on the joystick -/
  reads_done : Nat
  /-- lines on standard error, oldest first -/
  stderr : List ErrLine
deriving DecidableEq

/-- The system at program start. -/
def World.init : World :=
  { open_fds := [], closed_fds := [], dir_open := false, uinput_opens := 0, requests := [],
    evbits := [], keybits := [],
    setup := none, device_created := false, written := [], reads_done := 0, stderr := [] }

/-- Result of a function that may call `exit`. -/
inductive Res (α : Type) where
  | ret (a : α) (w : World)
  | exit (status : Int) (w : World)

/-- The variables `last_x_key` and `last_y_key` of `main`. -/
structure AxisState where
  last_x_key : Int
  last_y_key : Int
deriving DecidableEq

/-- How a run of `main` over finitely many read results ends: the process has
terminated with a status, or it sits in `read` waiting for the next event. -/
inductive Outcome where
  | exited (status : Int)
  | reading
deriving DecidableEq

/-! ## System calls -/

/-- Effect of `open` returning `fd`. -/
def sys_open (fd : Int) (w : World) : World :=
  if 0 ≤ fd then { w with open_fds := fd :: w.open_fds } else w

/-- Effect of `close(fd)`. -/
def sys_close (fd : Int) (w : World) : World :=
  { w with open_fds := w.open_fds.erase fd, closed_fds := w.closed_fds ++ [fd] }

/-- Effect of `closedir(dp)`. -/
def sys_closedir (w : World) : World :=
  { w with dir_open := false }

/-- Effect of an `ioctl` on the uinput descriptor whose return value is `r`: the
request is recorded, and a request that fails changes nothing else. -/
def sys_ioctl (r : Int) (req : IoctlReq) (w : World) : World :=
  let w := { w with requests := w.requests ++ [req] }
  if r < 0 then w else
  match req with
  | .UI_SET_EVBIT ev => { w with evbits := w.evbits ++ [ev] }
  | .UI_SET_KEYBIT key => { w with keybits := w.keybits ++ [key] }
  | .UI_DEV_SETUP u => { w with setup := some u }
  | .UI_DEV_CREATE => { w with device_created := true }
  | .UI_DEV_DESTROY => { w with device_created := false }

/-- Appends a line to standard error. -/
def to_stderr (l : ErrLine) (w : World) : World :=
  { w with stderr := w.stderr ++ [l] }

/-! ## The functions of `main.c` -/

/-- The function `matches_glob(str, pattern)`: `0 == fnmatch(pattern, str, 0)`. -/
def matches_glob (env : Env) (str pattern : String) : Bool :=
  decide (0 = env.fnmatch pattern str 0)

/-- The `struct uinput_setup` that `setup_uinput_device` fills in. -/
def jsmapper_setup : uinput_setup :=
  { name := "jsmapper", bustype := BUS_USB, vendor := USB_VENDOR,
    product := USB_PRODUCT, version := USB_VERSION }

/-- The function `setup_uinput_device(uinput_fd)`.  The return values of the five `UI_SET_*`
requests are not looked at; those of `UI_DEV_SETUP` and `UI_DEV_CREATE` are. -/
def setup_uinput_device (env : Env) (uinput_fd : Int) (w : World) : Res Unit :=
  let w := sys_ioctl (env.ioctl uinput_fd (.UI_SET_EVBIT EV_KEY)) (.UI_SET_EVBIT EV_KEY) w
  let w := sys_ioctl (env.ioctl uinput_fd (.UI_SET_KEYBIT KEY_UP)) (.UI_SET_KEYBIT KEY_UP) w
  let w := sys_ioctl (env.ioctl uinput_fd (.UI_SET_KEYBIT KEY_DOWN)) (.UI_SET_KEYBIT KEY_DOWN) w
  let w := sys_ioctl (env.ioctl uinput_fd (.UI_SET_KEYBIT KEY_LEFT)) (.UI_SET_KEYBIT KEY_LEFT) w
  let w := sys_ioctl (env.ioctl uinput_fd (.UI_SET_KEYBIT KEY_RIGHT)) (.UI_SET_KEYBIT KEY_RIGHT) w
  let usetup := jsmapper_setup
  let w1 := sys_ioctl (env.ioctl uinput_fd (.UI_DEV_SETUP usetup)) (.UI_DEV_SETUP usetup) w
  if env.ioctl uinput_fd (.UI_DEV_SETUP usetup) < 0 then
    .exit EXIT_FAILURE (to_stderr (.perror "failed to setup uinput device") w1)
  else
    let w2 := sys_ioctl (env.ioctl uinput_fd .UI_DEV_CREATE) .UI_DEV_CREATE w1
    if env.ioctl uinput_fd .UI_DEV_CREATE < 0 then
      .exit EXIT_FAILURE (to_stderr (.perror "failed to create uinput device") w2)
    else
      .ret () w2

/-- The function `emit(uinput_fd, type, code, value)`: the `int` arguments `type` and `code` are
stored into `__u16` fields, hence reduced modulo `2^16`; a failing `write` ends
the process with status 1. -/
def emit (env : Env) (uinput_fd type code value : Int) (w : World) : Res Unit :=
  let ev : input_event := { type := type % 65536, code := code % 65536, value := value }
  if env.write_ok w.written.length then
    .ret () { w with written := w.written ++ [(uinput_fd, ev)] }
  else
    .exit 1 (to_stderr (.perror "failed to write input event") w)

/-- The function `send_key_event(uinput_fd, key, value)`: the key event, then the
report. -/
def send_key_event (env : Env) (uinput_fd key value : Int) (w : World) : Res Unit :=
  match emit env uinput_fd EV_KEY key value w with
  | .exit st w1 => .exit st w1
  | .ret _ w1 => emit env uinput_fd EV_SYN SYN_REPORT 0 w1

/-- The test `strncmp(entry->d_name, "event", 5) == 0`. -/
def strncmp_event (d_name : String) : Bool :=
  d_name.toList.take 5 == "event".toList

/-- The string `snprintf(device_path, sizeof(device_path), "/dev/input/%s", d_name)`
leaves in the 256-byte buffer `device_path`: at most 255 characters. -/
def device_path_of (d_name : String) : String :=
  String.mk (("/dev/input/" ++ d_name).toList.take 255)

/-- The `while ((entry = readdir(dp)) != NULL)` loop of `find_joystick_device`,
over the entries still to come; `name` is the current content of the buffer. -/
def find_joystick_loop (env : Env) (loglevel : Int) (pattern : String) :
    List DirEntry → String → World → Int × World
  | [], _, w => (-1, sys_closedir w)
  | entry :: rest, name, w =>
    if entry.d_type = DT_CHR ∧ strncmp_event entry.d_name = true then
      let device_path := device_path_of entry.d_name
      let fd := entry.open_result
      let w := sys_open fd w
      if 0 ≤ fd then
        let name := match entry.name_reply with
          | some n => n
          | none => name
        if matches_glob env name pattern = true then
          let w := sys_closedir w
          let w := if 0 < loglevel then
              to_stderr (.text ("found device " ++ device_path ++ "\n")) w
            else w
          (fd, w)
        else
          find_joystick_loop env loglevel pattern rest name (sys_close fd w)
      else
        find_joystick_loop env loglevel pattern rest name w
    else
      find_joystick_loop env loglevel pattern rest name w

/-- The function `find_joystick_device(pattern)`: `opendir`, then the loop. -/
def find_joystick_device (env : Env) (loglevel : Int) (pattern : String) (w : World) :
    Int × World :=
  match env.dev_input with
  | none => (-1, to_stderr (.perror "failed to open /dev/input") w)
  | some entries =>
    find_joystick_loop env loglevel pattern entries env.name_init { w with dir_open := true }

/-- The line `"type %d code %d value %d\n"` for an event. -/
def event_line (ev : input_event) : ErrLine :=
  .text ("type " ++ toString ev.type ++ " code " ++ toString ev.code ++
    " value " ++ toString ev.value ++ "\n")

/-- The diagnostic of `main` printed for every event when `loglevel > 1`. -/
def log_event (loglevel : Int) (ev : input_event) (w : World) : World :=
  if 1 < loglevel then to_stderr (event_line ev) w else w

/-- The `if (ev.type == EV_ABS) ...` statement of the loop of `main`: the two
nested `switch` statements on `ev.code` and `ev.value`. -/
def main_dispatch (env : Env) (uinput_fd : Int) (s : AxisState) (ev : input_event)
    (w : World) : Res AxisState :=
  if ev.type = EV_ABS then
    if ev.code = ABS_X then
      if ev.value = 0 then
        let s := { s with last_x_key := KEY_RIGHT }
        match send_key_event env uinput_fd KEY_RIGHT 1 w with
        | .exit st w1 => .exit st w1
        | .ret _ w1 => .ret s w1
      else if ev.value = 255 then
        let s := { s with last_x_key := KEY_LEFT }
        match send_key_event env uinput_fd KEY_LEFT 1 w with
        | .exit st w1 => .exit st w1
        | .ret _ w1 => .ret s w1
      else if ev.value = 127 then
        match send_key_event env uinput_fd s.last_x_key 0 w with
        | .exit st w1 => .exit st w1
        | .ret _ w1 => .ret s w1
      else .ret s w
    else if ev.code = ABS_Y then
      if ev.value = 0 then
        let s := { s with last_y_key := KEY_DOWN }
        match send_key_event env uinput_fd s.last_y_key 1 w with
        | .exit st w1 => .exit st w1
        | .ret _ w1 => .ret s w1
      else if ev.value = 255 then
        let s := { s with last_y_key := KEY_UP }
        match send_key_event env uinput_fd s.last_y_key 1 w with
        | .exit st w1 => .exit st w1
        | .ret _ w1 => .ret s w1
      else if ev.value = 127 then
        match send_key_event env uinput_fd s.last_y_key 0 w with
        | .exit st w1 => .exit st w1
        | .ret _ w1 => .ret s w1
      else .ret s w
    else .ret s w
  else .ret s w

/-- What one turn of the loop of `main` does with an event that `read` delivered:
the diagnostic, then the dispatch. -/
def main_loop_body (env : Env) (loglevel uinput_fd : Int) (s : AxisState)
    (ev : input_event) (w : World) : Res AxisState :=
  main_dispatch env uinput_fd s ev (log_event loglevel ev w)

/-- How the `while (1)` loop of `main` ends on finitely many read results: it is
still waiting in `read` when they run out, it was left by `break`, or `emit`
ended the process. -/
inductive LoopEnd where
  | waiting (s : AxisState) (w : World)
  | broke (s : AxisState) (w : World)
  | exit (status : Int) (w : World)

/-- The `while (1)` loop of `main` over the read results still to come. -/
def main_loop (env : Env) (loglevel uinput_fd : Int) :
    List (Option input_event) → AxisState → World → LoopEnd
  | [], s, w => .waiting s w
  | none :: _, s, w =>
    .broke s
      (to_stderr (.perror "failed to read input event") { w with reads_done := w.reads_done + 1 })
  | some ev :: rest, s, w =>
    match main_loop_body env loglevel uinput_fd s ev { w with reads_done := w.reads_done + 1 } with
    | .exit st w1 => .exit st w1
    | .ret s1 w1 => main_loop env loglevel uinput_fd rest s1 w1

/-- The function `main` from the point where the options are parsed: `loglevel` is the number
of `-v` options and `pattern` is `argv[optind]`. -/
def main (env : Env) (loglevel : Int) (pattern : String) : Outcome × World :=
  let (js_fd, w) := find_joystick_device env loglevel pattern World.init
  if js_fd < 0 then
    (.exited EXIT_FAILURE,
      to_stderr (.text ("failed to locate device matching \"" ++ pattern ++ "\"\n")) w)
  else
    let uinput_fd := env.uinput_open
    let w := sys_open uinput_fd { w with uinput_opens := w.uinput_opens + 1 }
    if uinput_fd < 0 then
      (.exited EXIT_FAILURE,
        sys_close js_fd (to_stderr (.perror "failed to open /dev/uinput") w))
    else
      match setup_uinput_device env uinput_fd w with
      | .exit st w => (.exited st, w)
      | .ret _ w =>
        match main_loop env loglevel uinput_fd env.reads
            { last_x_key := env.last_x_init, last_y_key := env.last_y_init } w with
        | .waiting _ w => (.reading, w)
        | .exit st w => (.exited st, w)
        | .broke _ w =>
          let w := sys_ioctl (env.ioctl uinput_fd .UI_DEV_DESTROY) .UI_DEV_DESTROY w
          let w := sys_close uinput_fd w
          let w := sys_close js_fd w
          (.exited EXIT_SUCCESS, w)

/-! ## A model of `fnmatch` for concrete runs

The theorems below hold for every `fnmatch`.  Concrete runs need one: the
following is the shell-glob matching of `fnmatch(pattern, string, 0)` for
patterns built from ordinary characters, `*`, `?`, bracket expressions with
ranges and negation, and backslash escapes. -/

/-- Scans a bracket expression after its `[` (and after a negation mark): whether
`c` is one of the listed characters, and the pattern that follows the closing
`]`; `none` when the bracket is not closed.  A `]` in first position is an
ordinary member.  `lo` and `dash` remember the lower end of a range `lo-hi`
while its `-` and its upper end are read. -/
def glob_bracket (c : Char) : Bool → Bool → Option Char → Bool → List Char →
    Option (Bool × List Char)
  | _, _, _, _, [] => none
  | first, acc, lo, dash, x :: rest =>
    match lo, dash with
    | some l, false => glob_bracket c false acc (some l) true rest
    | some l, true =>
      glob_bracket c false (acc || (decide (l.toNat ≤ c.toNat) && decide (c.toNat ≤ x.toNat)))
        none false rest
    | none, _ =>
      if x = ']' ∧ first = false then some (acc, rest)
      else if rest.head? = some '-' ∧ rest.tail.head? ≠ none ∧ rest.tail.head? ≠ some ']' then
        glob_bracket c false acc (some x) false rest
      else glob_bracket c false (acc || c == x) none false rest

/-- Glob matching of the string `s` against the pattern `p`, with `fuel` steps. -/
def glob_match : Nat → List Char → List Char → Bool
  | 0, _, _ => false
  | _ + 1, [], s => s.isEmpty
  | fuel + 1, p :: ps, s =>
    if p = '*' then
      glob_match fuel ps s ||
        (match s with
         | [] => false
         | _ :: t => glob_match fuel (p :: ps) t)
    else
      match s with
      | [] => false
      | c :: t =>
        if p = '?' then glob_match fuel ps t
        else if p = '[' then
          let neg := decide (ps.head? = some '!') || decide (ps.head? = some '^')
          let body := if neg then ps.tail else ps
          match glob_bracket c true false none false body with
          | some (m, rest) => (m != neg) && glob_match fuel rest t
          | none => c == '[' && glob_match fuel ps t
        else if p = Char.ofNat 92 then
          match ps with
          | [] => false
          | q :: qs => c == q && glob_match fuel qs t
        else c == p && glob_match fuel ps t

/-- Model of `fnmatch(pattern, string, flags)` of the C library for the flags
value 0, the only one the program passes: 0 on a match and `FNM_NOMATCH` (1)
otherwise. -/
def fnmatch_model (pattern string : String) (_flags : Int) : Int :=
  if glob_match (pattern.length + string.length + 1) pattern.toList string.toList = true
  then 0 else 1

/-! ## Vocabulary of the specification -/

/-- The key event `(EV_KEY, key, value)` written to descriptor `fd`. -/
def key_event (fd key value : Int) : Int × input_event :=
  (fd, { type := EV_KEY, code := key, value := value })

/-- The report event `(EV_SYN, SYN_REPORT, 0)` written to descriptor `fd`. -/
def syn_event (fd : Int) : Int × input_event :=
  (fd, { type := EV_SYN, code := SYN_REPORT, value := 0 })

/-- A press of `key`: the key event with value 1 and its report. -/
def press (fd key : Int) : List (Int × input_event) :=
  [key_event fd key 1, syn_event fd]

/-- A release of `key`: the key event with value 0 and its report. -/
def release (fd key : Int) : List (Int × input_event) :=
  [key_event fd key 0, syn_event fd]

/-- An axis-motion event on axis `code`. -/
def axis_sample (code value : Int) : input_event :=
  { type := EV_ABS, code := code, value := value }

/-- Whether an event is an extreme sample (0 or 255) on axis `axis`. -/
def is_extreme (axis : Int) (ev : input_event) : Bool :=
  decide (ev.type = EV_ABS) && decide (ev.code = axis) &&
    (decide (ev.value = 0) || decide (ev.value = 255))

/-- The value of the latest extreme sample on axis `axis` among `evs`. -/
def latest_extreme (axis : Int) (evs : List input_event) : Option Int :=
  ((evs.filter (is_extreme axis)).getLast?).map (fun ev => ev.value)

/-- The key the specification maps an extreme sample to: horizontal 0 is RIGHT,
horizontal 255 is LEFT, vertical 0 is DOWN, vertical 255 is UP. -/
def mapped_key (axis value : Int) : Int :=
  if axis = ABS_X then (if value = 0 then KEY_RIGHT else KEY_LEFT)
  else (if value = 0 then KEY_DOWN else KEY_UP)

/-- A stream of (key event, report event) pairs on descriptor `fd`, the key
events having value 0 or 1. -/
def is_pair_stream (fd : Int) : List (Int × input_event) → Bool
  | [] => true
  | [_] => false
  | a :: b :: rest =>
    decide (a.1 = fd) && decide (a.2.type = EV_KEY) &&
      (decide (a.2.value = 0) || decide (a.2.value = 1)) &&
      decide (b = syn_event fd) && is_pair_stream fd rest

/-! ## The dispatch when every write succeeds

`dispatch_state` and `dispatch_out` describe `main_dispatch` in a run where no
`write` fails; they are tied to the code by `main_dispatch_eq`. -/

/-- Axis state after `main_dispatch`. -/
def dispatch_state (s : AxisState) (ev : input_event) : AxisState :=
  if ev.type = EV_ABS then
    if ev.code = ABS_X then
      if ev.value = 0 then { s with last_x_key := KEY_RIGHT }
      else if ev.value = 255 then { s with last_x_key := KEY_LEFT }
      else s
    else if ev.code = ABS_Y then
      if ev.value = 0 then { s with last_y_key := KEY_DOWN }
      else if ev.value = 255 then { s with last_y_key := KEY_UP }
      else s
    else s
  else s

/-- Events written by `main_dispatch`. -/
def dispatch_out (fd : Int) (s : AxisState) (ev : input_event) : List (Int × input_event) :=
  if ev.type = EV_ABS then
    if ev.code = ABS_X then
      if ev.value = 0 then press fd KEY_RIGHT
      else if ev.value = 255 then press fd KEY_LEFT
      else if ev.value = 127 then release fd (s.last_x_key % 65536)
      else []
    else if ev.code = ABS_Y then
      if ev.value = 0 then press fd KEY_DOWN
      else if ev.value = 255 then press fd KEY_UP
      else if ev.value = 127 then release fd (s.last_y_key % 65536)
      else []
    else []
  else []

/-- Events written by the loop over `evs`. -/
def loop_out (fd : Int) : AxisState → List input_event → List (Int × input_event)
  | _, [] => []
  | s, ev :: rest => dispatch_out fd s ev ++ loop_out fd (dispatch_state s ev) rest

/-- Lines the loop prints on standard error for `evs`. -/
def log_lines (loglevel : Int) (evs : List input_event) : List ErrLine :=
  if 1 < loglevel then evs.map event_line else []

/-- The world after the loop has handled `evs`, every write succeeding. -/
def loop_world (loglevel fd : Int) (s : AxisState) (evs : List input_event) (w : World) : World :=
  { w with
    written := w.written ++ loop_out fd s evs
    reads_done := w.reads_done + evs.length
    stderr := w.stderr ++ log_lines loglevel evs }

/-! ## A concrete system for the examples -/

/-- A system whose `/dev/input` holds two directories, a power button, an event
node that cannot be opened, the joystick "Generic GamePad", the legacy mouse
node and a second pad; every other system call succeeds. -/
def demo_env : Env :=
  { fnmatch := fnmatch_model
    dev_input := some
      [ { d_type := 4, d_name := ".", open_result := -1, name_reply := none },
        { d_type := 4, d_name := "by-id", open_result := -1, name_reply := none },
        { d_type := DT_CHR, d_name := "event0", open_result := 3,
          name_reply := some "Power Button" },
        { d_type := DT_CHR, d_name := "event1", open_result := -1, name_reply := none },
        { d_type := DT_CHR, d_name := "event2", open_result := 3,
          name_reply := some "Generic GamePad" },
        { d_type := DT_CHR, d_name := "mice", open_result := 3, name_reply := none },
        { d_type := DT_CHR, d_name := "event3", open_result := 3,
          name_reply := some "Other GamePad" } ]
    name_init := ""
    uinput_open := 4
    ioctl := fun _ _ => 0
    reads := []
    write_ok := fun _ => true
    last_x_init := 0
    last_y_init := 0 }

/-- The system of the end-to-end scenario: the only device is named
"Generic GamePad". -/
def gamepad_env : Env :=
  { demo_env with
    dev_input := some
      [ { d_type := DT_CHR, d_name := "event0", open_result := 3,
          name_reply := some "Generic GamePad" } ] }

/-! ## The Device Locator -/

/-- A candidate of the locator: a character device whose file name begins with
"event". -/
def is_candidate (e : DirEntry) : Bool :=
  decide (e.d_type = DT_CHR) && decide ("event".toList <+: e.d_name.toList)

/-- A candidate whose open succeeds. -/
def is_opened (e : DirEntry) : Bool :=
  is_candidate e && decide (0 ≤ e.open_result)

/-- An entry that satisfies the four conditions of the specification: character
device, file name beginning with "event", open succeeds, reported name matches
the pattern. -/
def is_match (env : Env) (pattern : String) (e : DirEntry) : Bool :=
  is_opened e &&
    (match e.name_reply with
     | some n => matches_glob env n pattern
     | none => false)

/-- The handles of the entries of `l` that the locator opens. -/
def opened_handles (l : List DirEntry) : List Int :=
  (l.filter is_opened).map (fun e => e.open_result)

/-- What the locator leaves untouched. -/
def locator_frame (w w1 : World) : Prop :=
  w1.uinput_opens = w.uinput_opens ∧ w1.requests = w.requests ∧ w1.evbits = w.evbits ∧
  w1.keybits = w.keybits ∧
  w1.setup = w.setup ∧ w1.device_created = w.device_created ∧ w1.written = w.written ∧
  w1.reads_done = w.reads_done

/-- Content of the buffer `name` after `EVIOCGNAME` on an entry. -/
def name_after (e : DirEntry) (name : String) : String :=
  match e.name_reply with
  | some n => n
  | none => name

/-! ## Virtual device setup and the whole program -/

/-- A system in which registering `KEY_UP` fails while every other request
succeeds, and the joystick then reports a vertical sample of 255. -/
def keybit_fail_env : Env :=
  { demo_env with
    ioctl := fun _ req => if req = .UI_SET_KEYBIT KEY_UP then -1 else 0
    reads := [some (axis_sample ABS_Y 255)] }

/-- What `sys_ioctl` leaves untouched. -/
def ioctl_frame (w w1 : World) : Prop :=
  w1.open_fds = w.open_fds ∧ w1.closed_fds = w.closed_fds ∧ w1.dir_open = w.dir_open ∧
  w1.uinput_opens = w.uinput_opens ∧ w1.written = w.written ∧ w1.reads_done = w.reads_done ∧
  w1.stderr = w.stderr

/-- The concrete system with a joystick that reports horizontal 0 and 127 and
then disappears; a further event would be pending. -/
def read_fail_env : Env :=
  { demo_env with
    reads := [some (axis_sample ABS_X 0), some (axis_sample ABS_X 127), none,
      some (axis_sample ABS_X 255)] }

/-! ## Keys held down -/

/-- Effect of one written event on whether `key` is held: a key event for `key`
with value 1 presses it, with value 0 releases it; nothing else matters. -/
def held_step (key : Int) (h : Bool) (e : Int × input_event) : Bool :=
  if e.2.type = EV_KEY ∧ e.2.code = key then
    (if e.2.value = 1 then true else if e.2.value = 0 then false else h)
  else h

/-- Whether `key` is held after the written stream `out`, no key being held
before: it has been pressed and not released since. -/
def held_after (out : List (Int × input_event)) (key : Int) : Bool :=
  out.foldl (held_step key) false

/-- At most one of LEFT, RIGHT and at most one of UP, DOWN is held after `out`. -/
def one_per_axis (out : List (Int × input_event)) : Bool :=
  !(held_after out KEY_LEFT && held_after out KEY_RIGHT) &&
    !(held_after out KEY_UP && held_after out KEY_DOWN)

/-- An axis-motion event on `axis` with one of the three meaningful values. -/
def is_sample (axis : Int) (ev : input_event) : Bool :=
  decide (ev.type = EV_ABS) && decide (ev.code = axis) &&
    (decide (ev.value = 0) || decide (ev.value = 127) || decide (ev.value = 255))

/-- Whether `ev` may follow a stream whose latest sample on `axis` had value `lv`:
it is not the extreme opposite to `lv`. -/
def reversal_ok (axis : Int) (lv : Option Int) (ev : input_event) : Bool :=
  !(is_sample axis ev &&
    ((decide (lv = some 0) && decide (ev.value = 255)) ||
     (decide (lv = some 255) && decide (ev.value = 0))))

/-- Value of the latest sample on `axis` once `ev` has come. -/
def next_sample (axis : Int) (lv : Option Int) (ev : input_event) : Option Int :=
  if is_sample axis ev = true then some ev.value else lv

/-- On `axis`, no extreme sample is followed by the opposite extreme sample
without a centre sample of that axis in between; `lv` is the value of the latest
sample on the axis before `evs`. -/
def no_direct_reversal (axis : Int) : Option Int → List input_event → Bool
  | _, [] => true
  | lv, ev :: rest =>
    reversal_ok axis lv ev && no_direct_reversal axis (next_sample axis lv ev) rest

/-- Invariant of the horizontal axis: a held LEFT or RIGHT is the key of the
latest horizontal sample, and `last_x_key` is that key. -/
def inv_x (acc : List (Int × input_event)) (s : AxisState) (lv : Option Int) : Prop :=
  (held_after acc KEY_LEFT = true → lv = some 255) ∧
  (held_after acc KEY_RIGHT = true → lv = some 0) ∧
  (lv = some 0 → s.last_x_key = KEY_RIGHT) ∧
  (lv = some 255 → s.last_x_key = KEY_LEFT)

/-- Invariant of the vertical axis. -/
def inv_y (acc : List (Int × input_event)) (s : AxisState) (lv : Option Int) : Prop :=
  (held_after acc KEY_UP = true → lv = some 255) ∧
  (held_after acc KEY_DOWN = true → lv = some 0) ∧
  (lv = some 0 → s.last_y_key = KEY_DOWN) ∧
  (lv = some 255 → s.last_y_key = KEY_UP)

/-! # Theorems -/

/-! ## Basic facts -/

theorem emit_ok (env : Env) (fd t c v : Int) (w : World)
    (h : env.write_ok w.written.length = true) :
    emit env fd t c v w =
      .ret () { w with written := w.written ++ [(fd, { type := t % 65536, code := c % 65536, value := v })] } := by
  simp [emit, h]

theorem send_key_event_ok (env : Env) (fd key v : Int) (w : World)
    (hw : ∀ n, env.write_ok n = true) :
    send_key_event env fd key v w =
      .ret () { w with written := w.written ++ [key_event fd (key % 65536) v, syn_event fd] } := by
  simp [send_key_event, emit, hw, key_event, syn_event, EV_KEY, EV_SYN, SYN_REPORT]

theorem main_dispatch_eq (env : Env) (fd : Int) (s : AxisState) (ev : input_event) (w : World)
    (hw : ∀ n, env.write_ok n = true) :
    main_dispatch env fd s ev w =
      .ret (dispatch_state s ev) { w with written := w.written ++ dispatch_out fd s ev } := by
  unfold main_dispatch dispatch_state dispatch_out
  split_ifs <;> simp [send_key_event_ok, hw, press, release, KEY_RIGHT, KEY_LEFT, KEY_UP, KEY_DOWN]

theorem log_event_eq (loglevel : Int) (ev : input_event) (w : World) :
    log_event loglevel ev w = { w with stderr := w.stderr ++ log_lines loglevel [ev] } := by
  unfold log_event log_lines to_stderr
  split_ifs <;> simp

theorem log_lines_cons (loglevel : Int) (ev : input_event) (evs : List input_event) :
    log_lines loglevel (ev :: evs) = log_lines loglevel [ev] ++ log_lines loglevel evs := by
  unfold log_lines
  split_ifs <;> simp

theorem main_loop_body_eq (env : Env) (loglevel fd : Int) (s : AxisState) (ev : input_event)
    (w : World) (hw : ∀ n, env.write_ok n = true) :
    main_loop_body env loglevel fd s ev w =
      .ret (dispatch_state s ev)
        { w with written := w.written ++ dispatch_out fd s ev
                 stderr := w.stderr ++ log_lines loglevel [ev] } := by
  rw [main_loop_body, main_dispatch_eq _ _ _ _ _ hw, log_event_eq]

theorem main_loop_eq (env : Env) (loglevel fd : Int) (hw : ∀ n, env.write_ok n = true)
    (evs : List input_event) (s : AxisState) (w : World) :
    main_loop env loglevel fd (evs.map some) s w =
      .waiting (evs.foldl dispatch_state s) (loop_world loglevel fd s evs w) := by
  induction evs generalizing s w with
  | nil => simp [main_loop, loop_world, loop_out, log_lines]
  | cons ev rest ih =>
    simp only [List.map_cons, main_loop, main_loop_body_eq _ _ _ _ _ _ hw, ih, List.foldl_cons]
    congr 1
    simp [loop_world, loop_out, log_lines_cons loglevel ev rest, Nat.add_assoc, Nat.add_comm 1]

theorem main_loop_append (env : Env) (loglevel fd : Int) (evs : List input_event)
    (rest : List (Option input_event)) (s s1 : AxisState) (w w1 : World)
    (h : main_loop env loglevel fd (evs.map some) s w = .waiting s1 w1) :
    main_loop env loglevel fd (evs.map some ++ rest) s w = main_loop env loglevel fd rest s1 w1 := by
  induction evs generalizing s w with
  | nil =>
    simp only [List.map_nil, main_loop, LoopEnd.waiting.injEq] at h
    simp [h.1, h.2]
  | cons ev tl ih =>
    simp only [List.map_cons, main_loop, List.cons_append] at h ⊢
    cases hb : main_loop_body env loglevel fd s ev { w with reads_done := w.reads_done + 1 } with
    | exit st w2 => simp [hb] at h
    | ret s2 w2 =>
      simp only [hb] at h ⊢
      exact ih s2 w2 h

theorem latest_extreme_snoc (axis : Int) (pre : List input_event) (ev : input_event) :
    latest_extreme axis (pre ++ [ev]) =
      if is_extreme axis ev = true then some ev.value else latest_extreme axis pre := by
  unfold latest_extreme
  by_cases h : is_extreme axis ev = true
  · simp [List.filter_append, List.filter_cons, h]
  · simp [List.filter_append, List.filter_cons, h]

theorem dispatch_state_keep_x (s : AxisState) (ev : input_event)
    (h : ¬ is_extreme ABS_X ev = true) :
    (dispatch_state s ev).last_x_key = s.last_x_key := by
  unfold dispatch_state
  split_ifs
  all_goals first
    | rfl
    | (exfalso; apply h; simp [is_extreme, *])

theorem dispatch_state_keep_y (s : AxisState) (ev : input_event)
    (h : ¬ is_extreme ABS_Y ev = true) :
    (dispatch_state s ev).last_y_key = s.last_y_key := by
  unfold dispatch_state
  split_ifs
  all_goals first
    | rfl
    | (exfalso; apply h; simp [is_extreme, *])

theorem last_x_key_of_latest (s : AxisState) (pre : List input_event) (v : Int)
    (h : latest_extreme ABS_X pre = some v) :
    (pre.foldl dispatch_state s).last_x_key = mapped_key ABS_X v := by
  induction pre using List.reverseRecOn generalizing v with
  | nil => simp [latest_extreme] at h
  | append_singleton l ev ih =>
    rw [latest_extreme_snoc] at h
    rw [List.foldl_append, List.foldl_cons, List.foldl_nil]
    by_cases hex : is_extreme ABS_X ev = true
    · simp only [hex, if_true, Option.some.injEq] at h
      subst h
      simp only [is_extreme, Bool.and_eq_true, Bool.or_eq_true, decide_eq_true_eq] at hex
      obtain ⟨⟨ht, hc⟩, hv⟩ := hex
      rcases hv with hv | hv <;> simp [dispatch_state, mapped_key, ht, hc, hv]
    · simp only [hex] at h
      rw [dispatch_state_keep_x _ _ hex]
      exact ih v h

theorem last_y_key_of_latest (s : AxisState) (pre : List input_event) (v : Int)
    (h : latest_extreme ABS_Y pre = some v) :
    (pre.foldl dispatch_state s).last_y_key = mapped_key ABS_Y v := by
  induction pre using List.reverseRecOn generalizing v with
  | nil => simp [latest_extreme] at h
  | append_singleton l ev ih =>
    rw [latest_extreme_snoc] at h
    rw [List.foldl_append, List.foldl_cons, List.foldl_nil]
    by_cases hex : is_extreme ABS_Y ev = true
    · simp only [hex, if_true, Option.some.injEq] at h
      subst h
      simp only [is_extreme, Bool.and_eq_true, Bool.or_eq_true, decide_eq_true_eq] at hex
      obtain ⟨⟨ht, hc⟩, hv⟩ := hex
      rcases hv with hv | hv <;>
        simp [dispatch_state, mapped_key, ht, hc, hv, ABS_X, ABS_Y]
    · simp only [hex] at h
      rw [dispatch_state_keep_y _ _ hex]
      exact ih v h

theorem loop_out_append (fd : Int) (s : AxisState) (l1 l2 : List input_event) :
    loop_out fd s (l1 ++ l2) = loop_out fd s l1 ++ loop_out fd (l1.foldl dispatch_state s) l2 := by
  induction l1 generalizing s with
  | nil => simp [loop_out]
  | cons ev tl ih => simp [loop_out, ih]

theorem dispatch_out_pair (fd : Int) (s : AxisState) (ev : input_event) :
    dispatch_out fd s ev = [] ∨
      ∃ key v, (v = 0 ∨ v = 1) ∧ dispatch_out fd s ev = [key_event fd key v, syn_event fd] := by
  unfold dispatch_out press release
  split_ifs
  all_goals first
    | (left; rfl)
    | (right; exact ⟨_, 1, Or.inr rfl, rfl⟩)
    | (right; exact ⟨_, 0, Or.inl rfl, rfl⟩)

theorem is_pair_stream_append (fd : Int) :
    ∀ (l1 l2 : List (Int × input_event)), is_pair_stream fd l1 = true →
      is_pair_stream fd l2 = true → is_pair_stream fd (l1 ++ l2) = true
  | [], l2, _, h2 => by simpa using h2
  | [a], _, h1, _ => by simp [is_pair_stream] at h1
  | a :: b :: rest, l2, h1, h2 => by
    simp only [is_pair_stream, Bool.and_eq_true] at h1
    simp only [List.cons_append, is_pair_stream, Bool.and_eq_true]
    exact ⟨h1.1, is_pair_stream_append fd rest l2 h1.2 h2⟩

theorem loop_out_pair_stream (fd : Int) (s : AxisState) (evs : List input_event) :
    is_pair_stream fd (loop_out fd s evs) = true ∧ Even (loop_out fd s evs).length := by
  induction evs generalizing s with
  | nil => simp [loop_out, is_pair_stream]
  | cons ev rest ih =>
    obtain ⟨ih1, ih2⟩ := ih (dispatch_state s ev)
    rcases dispatch_out_pair fd s ev with h | ⟨key, v, hv, h⟩
    · simp [loop_out, h, ih1, ih2]
    · refine ⟨?_, ?_⟩
      · rw [loop_out, h]
        apply is_pair_stream_append _ _ _ _ ih1
        rcases hv with hv | hv <;> simp [hv, is_pair_stream, key_event, syn_event]
      · rw [loop_out, h, List.length_append]
        exact Even.add (show Even [key_event fd key v, syn_event fd].length from ⟨1, rfl⟩) ih2

/-! ## The Axis Translator -/

/-- C1 (press step): when the writes succeed, from every axis state an extreme
sample makes the dispatch write exactly one pair, the press of the mapped key
followed by the report (horizontal 0 is RIGHT, horizontal 255 is LEFT, vertical
0 is DOWN, vertical 255 is UP), record that key for the axis and leave the other
axis alone; no release of the former key is written.  From every state the
horizontal samples 255, 127, 255, 0 write press LEFT, release LEFT, press LEFT,
press RIGHT and nothing else. -/
theorem press_step (env : Env) (loglevel uinput_fd : Int) (s : AxisState) (w : World)
    (hw : ∀ n, env.write_ok n = true) :
    main_dispatch env uinput_fd s (axis_sample ABS_X 0) w =
        .ret { s with last_x_key := KEY_RIGHT }
          { w with written := w.written ++ press uinput_fd KEY_RIGHT }
    ∧ main_dispatch env uinput_fd s (axis_sample ABS_X 255) w =
        .ret { s with last_x_key := KEY_LEFT }
          { w with written := w.written ++ press uinput_fd KEY_LEFT }
    ∧ main_dispatch env uinput_fd s (axis_sample ABS_Y 0) w =
        .ret { s with last_y_key := KEY_DOWN }
          { w with written := w.written ++ press uinput_fd KEY_DOWN }
    ∧ main_dispatch env uinput_fd s (axis_sample ABS_Y 255) w =
        .ret { s with last_y_key := KEY_UP }
          { w with written := w.written ++ press uinput_fd KEY_UP }
    ∧ ∃ s1 w1,
        main_loop env loglevel uinput_fd
          [some (axis_sample ABS_X 255), some (axis_sample ABS_X 127),
           some (axis_sample ABS_X 255), some (axis_sample ABS_X 0)] s w = .waiting s1 w1
        ∧ w1.written = w.written ++ (press uinput_fd KEY_LEFT ++ release uinput_fd KEY_LEFT
            ++ press uinput_fd KEY_LEFT ++ press uinput_fd KEY_RIGHT) := by
  refine ⟨?_, ?_, ?_, ?_, ?_⟩
  · rw [main_dispatch_eq _ _ _ _ _ hw]
    simp [dispatch_state, dispatch_out, axis_sample]
  · rw [main_dispatch_eq _ _ _ _ _ hw]
    simp [dispatch_state, dispatch_out, axis_sample]
  · rw [main_dispatch_eq _ _ _ _ _ hw]
    simp [dispatch_state, dispatch_out, axis_sample, ABS_X, ABS_Y]
  · rw [main_dispatch_eq _ _ _ _ _ hw]
    simp [dispatch_state, dispatch_out, axis_sample, ABS_X, ABS_Y]
  · have h := main_loop_eq env loglevel uinput_fd hw
      [axis_sample ABS_X 255, axis_sample ABS_X 127, axis_sample ABS_X 255,
       axis_sample ABS_X 0] s w
    simp only [List.map_cons, List.map_nil] at h
    refine ⟨_, _, h, ?_⟩
    simp [loop_world, loop_out, dispatch_out, dispatch_state, axis_sample, KEY_LEFT]

/-- Instance of C1 on the concrete system: the press of RIGHT for a horizontal 0. -/
theorem press_step_witness :
    (∀ n, demo_env.write_ok n = true) ∧
    main_dispatch demo_env 4 { last_x_key := KEY_LEFT, last_y_key := 0 }
        (axis_sample ABS_X 0) World.init =
      .ret { last_x_key := KEY_RIGHT, last_y_key := 0 }
        { World.init with written := press 4 KEY_RIGHT } :=
  ⟨fun _ => rfl,
    (press_step demo_env 0 4 { last_x_key := KEY_LEFT, last_y_key := 0 } World.init
      (fun _ => rfl)).1⟩

/-- C2 (release targets the latest key of the axis): when the writes succeed,
after any sequence of events that holds an extreme sample on an axis, a centre
sample (127) on that axis writes exactly one pair, the release of the key that
the latest extreme sample on that axis pressed, and leaves the axis state as it
was.  Horizontal 0, 127 writes press RIGHT, release RIGHT; vertical 0, 255, 127
writes press DOWN, press UP, release UP. -/
theorem release_targets_latest (env : Env) (loglevel uinput_fd : Int) (s : AxisState)
    (w : World) (pre : List input_event) (axis v : Int)
    (hw : ∀ n, env.write_ok n = true)
    (haxis : axis = ABS_X ∨ axis = ABS_Y)
    (hlast : latest_extreme axis pre = some v) :
    (∃ s1 w1 w2,
        main_loop env loglevel uinput_fd (pre.map some) s w = .waiting s1 w1
        ∧ main_loop env loglevel uinput_fd (pre.map some ++ [some (axis_sample axis 127)]) s w
            = .waiting s1 w2
        ∧ w2.written = w1.written ++ release uinput_fd (mapped_key axis v))
    ∧ (∃ s1 w1,
        main_loop env loglevel uinput_fd
          [some (axis_sample ABS_X 0), some (axis_sample ABS_X 127)] s w = .waiting s1 w1
        ∧ w1.written = w.written ++ (press uinput_fd KEY_RIGHT ++ release uinput_fd KEY_RIGHT))
    ∧ (∃ s1 w1,
        main_loop env loglevel uinput_fd
          [some (axis_sample ABS_Y 0), some (axis_sample ABS_Y 255),
           some (axis_sample ABS_Y 127)] s w = .waiting s1 w1
        ∧ w1.written = w.written ++ (press uinput_fd KEY_DOWN ++ press uinput_fd KEY_UP
            ++ release uinput_fd KEY_UP)) := by
  refine ⟨?_, ?_, ?_⟩
  · have h1 := main_loop_eq env loglevel uinput_fd hw pre s w
    have h2 := main_loop_append env loglevel uinput_fd pre [some (axis_sample axis 127)] s _ w _ h1
    have h3 := main_loop_eq env loglevel uinput_fd hw [axis_sample axis 127]
      (pre.foldl dispatch_state s) (loop_world loglevel uinput_fd s pre w)
    simp only [List.map_cons, List.map_nil] at h3
    rw [h3] at h2
    have hs : [axis_sample axis 127].foldl dispatch_state (pre.foldl dispatch_state s)
        = pre.foldl dispatch_state s := by
      simp only [List.foldl_cons, List.foldl_nil]
      rcases haxis with h | h <;> subst h <;>
        simp [dispatch_state, axis_sample, ABS_X, ABS_Y]
    rw [hs] at h2
    refine ⟨_, _, _, h1, h2, ?_⟩
    rcases haxis with h | h
    · subst h
      have hk := last_x_key_of_latest s pre v hlast
      have hm : mapped_key ABS_X v % 65536 = mapped_key ABS_X v := by
        unfold mapped_key; split_ifs <;> decide
      simp [loop_world, loop_out, dispatch_out, axis_sample, hk, hm]
    · subst h
      have hk := last_y_key_of_latest s pre v hlast
      have hm : mapped_key ABS_Y v % 65536 = mapped_key ABS_Y v := by
        unfold mapped_key; split_ifs <;> decide
      have hne : ¬ ABS_Y = ABS_X := by decide
      simp [loop_world, loop_out, dispatch_out, axis_sample, hk, hm, hne]
  · have h := main_loop_eq env loglevel uinput_fd hw
      [axis_sample ABS_X 0, axis_sample ABS_X 127] s w
    simp only [List.map_cons, List.map_nil] at h
    refine ⟨_, _, h, ?_⟩
    simp [loop_world, loop_out, dispatch_out, dispatch_state, axis_sample, KEY_RIGHT]
  · have h := main_loop_eq env loglevel uinput_fd hw
      [axis_sample ABS_Y 0, axis_sample ABS_Y 255, axis_sample ABS_Y 127] s w
    simp only [List.map_cons, List.map_nil] at h
    refine ⟨_, _, h, ?_⟩
    simp [loop_world, loop_out, dispatch_out, dispatch_state, axis_sample, KEY_UP, ABS_X, ABS_Y]

/-- Instance of C2 on the concrete system: after vertical 0, a button event,
horizontal 255 and vertical 255, a vertical centre sample releases UP. -/
theorem release_targets_latest_witness :
    (∀ n, demo_env.write_ok n = true)
    ∧ (ABS_Y = ABS_X ∨ ABS_Y = ABS_Y)
    ∧ latest_extreme ABS_Y
        [axis_sample ABS_Y 0, { type := EV_KEY, code := 304, value := 1 },
         axis_sample ABS_X 255, axis_sample ABS_Y 255] = some 255
    ∧ ∃ s1 w1 w2,
        main_loop demo_env 2 4
          ([axis_sample ABS_Y 0, { type := EV_KEY, code := 304, value := 1 },
            axis_sample ABS_X 255, axis_sample ABS_Y 255].map some)
          { last_x_key := 0, last_y_key := 0 } World.init = .waiting s1 w1
        ∧ main_loop demo_env 2 4
          ([axis_sample ABS_Y 0, { type := EV_KEY, code := 304, value := 1 },
            axis_sample ABS_X 255, axis_sample ABS_Y 255].map some
              ++ [some (axis_sample ABS_Y 127)])
          { last_x_key := 0, last_y_key := 0 } World.init = .waiting s1 w2
        ∧ w2.written = w1.written ++ release 4 (mapped_key ABS_Y 255) :=
  ⟨fun _ => rfl, Or.inr rfl, by decide,
    (release_targets_latest demo_env 2 4 { last_x_key := 0, last_y_key := 0 } World.init
      [axis_sample ABS_Y 0, { type := EV_KEY, code := 304, value := 1 },
       axis_sample ABS_X 255, axis_sample ABS_Y 255] ABS_Y 255
      (fun _ => rfl) (Or.inr rfl) (by decide)).1⟩

/-- C3 (ignored events): for every axis state and verbosity level, an event whose
type is not `EV_ABS`, or an axis-motion event on the horizontal or vertical axis
whose value is none of 0, 127, 255, writes nothing to the virtual device and
leaves both axis states unchanged; only standard error can differ afterwards. -/
theorem ignored_events (env : Env) (loglevel uinput_fd : Int) (s : AxisState) (w : World)
    (ev : input_event)
    (h : ev.type ≠ EV_ABS ∨
      ((ev.code = ABS_X ∨ ev.code = ABS_Y) ∧ ev.value ≠ 0 ∧ ev.value ≠ 127 ∧ ev.value ≠ 255)) :
    ∃ w1, main_loop_body env loglevel uinput_fd s ev w = .ret s w1
      ∧ w1.written = w.written
      ∧ w1 = { w with stderr := w1.stderr } := by
  refine ⟨log_event loglevel ev w, ?_, ?_, ?_⟩
  · unfold main_loop_body main_dispatch
    rcases h with h | ⟨_, h0, h127, h255⟩
    · simp [h]
    · simp [h0, h127, h255]
  · rw [log_event_eq]
  · rw [log_event_eq]

/-- Instance of C3 on the concrete system: a horizontal sample of value -7 at
verbosity 2. -/
theorem ignored_events_witness :
    ((axis_sample ABS_X (-7)).type ≠ EV_ABS ∨
      (((axis_sample ABS_X (-7)).code = ABS_X ∨ (axis_sample ABS_X (-7)).code = ABS_Y)
        ∧ (axis_sample ABS_X (-7)).value ≠ 0 ∧ (axis_sample ABS_X (-7)).value ≠ 127
        ∧ (axis_sample ABS_X (-7)).value ≠ 255))
    ∧ ∃ w1, main_loop_body demo_env 2 4 { last_x_key := KEY_LEFT, last_y_key := KEY_UP }
          (axis_sample ABS_X (-7)) World.init
        = .ret { last_x_key := KEY_LEFT, last_y_key := KEY_UP } w1
      ∧ w1.written = World.init.written
      ∧ w1 = { World.init with stderr := w1.stderr } :=
  ⟨Or.inr (by decide),
    ignored_events demo_env 2 4 { last_x_key := KEY_LEFT, last_y_key := KEY_UP } World.init
      (axis_sample ABS_X (-7)) (Or.inr (by decide))⟩

/-- C4 (emission protocol): when the writes succeed, for every axis state and
every finite sequence of events read, what the loop writes to the virtual device
has even length and consists of pairs, a key event of value 0 or 1 followed at
once by the report event; and each single event makes the loop body write either
nothing or exactly one such pair, in full, before it returns to the next read. -/
theorem emission_protocol (env : Env) (loglevel uinput_fd : Int)
    (hw : ∀ n, env.write_ok n = true) (s : AxisState) (w : World) :
    (∀ evs : List input_event, ∃ s1 w1 out,
        main_loop env loglevel uinput_fd (evs.map some) s w = .waiting s1 w1
        ∧ w1.written = w.written ++ out
        ∧ is_pair_stream uinput_fd out = true
        ∧ Even out.length)
    ∧ (∀ ev : input_event, ∃ s1 w1,
        main_loop_body env loglevel uinput_fd s ev w = .ret s1 w1
        ∧ w1.reads_done = w.reads_done
        ∧ (w1.written = w.written ∨
            ∃ key v, (v = 0 ∨ v = 1) ∧
              w1.written = w.written ++ [key_event uinput_fd key v, syn_event uinput_fd])) := by
  constructor
  · intro evs
    refine ⟨_, _, loop_out uinput_fd s evs, main_loop_eq env loglevel uinput_fd hw evs s w, rfl,
      (loop_out_pair_stream uinput_fd s evs).1, (loop_out_pair_stream uinput_fd s evs).2⟩
  · intro ev
    refine ⟨_, _, main_loop_body_eq env loglevel uinput_fd s ev w hw, rfl, ?_⟩
    rcases dispatch_out_pair uinput_fd s ev with h | ⟨key, v, hv, h⟩
    · left; simp [h]
    · right; exact ⟨key, v, hv, by simp [h]⟩

/-- Instance of C4 on the concrete system. -/
theorem emission_protocol_witness :
    (∀ n, demo_env.write_ok n = true)
    ∧ ∃ s1 w1 out,
        main_loop demo_env 0 4
          ([axis_sample ABS_X 0, axis_sample ABS_Y 255, axis_sample ABS_X 127].map some)
          { last_x_key := 0, last_y_key := 0 } World.init = .waiting s1 w1
        ∧ w1.written = World.init.written ++ out
        ∧ is_pair_stream 4 out = true
        ∧ Even out.length :=
  ⟨fun _ => rfl,
    (emission_protocol demo_env 0 4 (fun _ => rfl) { last_x_key := 0, last_y_key := 0 }
      World.init).1 [axis_sample ABS_X 0, axis_sample ABS_Y 255, axis_sample ABS_X 127]⟩

/-! ## The Device Locator: facts -/

theorem strncmp_event_iff (d : String) :
    strncmp_event d = true ↔ "event".toList <+: d.toList := by
  unfold strncmp_event
  rw [List.prefix_iff_eq_take, beq_iff_eq]
  constructor
  · intro h; exact h.symm
  · intro h; exact h.symm

theorem is_candidate_iff (e : DirEntry) :
    is_candidate e = true ↔ (e.d_type = DT_CHR ∧ strncmp_event e.d_name = true) := by
  simp [is_candidate, strncmp_event_iff]

theorem find_joystick_loop_skip (env : Env) (loglevel : Int) (pattern : String)
    (e : DirEntry) (rest : List DirEntry) (name : String) (w : World)
    (h : is_opened e = false) :
    find_joystick_loop env loglevel pattern (e :: rest) name w
      = find_joystick_loop env loglevel pattern rest name w := by
  rw [find_joystick_loop]
  by_cases hc : e.d_type = DT_CHR ∧ strncmp_event e.d_name = true
  · have hcand : is_candidate e = true := (is_candidate_iff e).2 hc
    have hfd : ¬ 0 ≤ e.open_result := by
      intro hfd
      simp [is_opened, hcand, hfd] at h
    simp [hc, hfd, sys_open]
  · rw [if_neg hc]

theorem find_joystick_loop_hit (env : Env) (loglevel : Int) (pattern : String)
    (e : DirEntry) (rest : List DirEntry) (name : String) (w : World)
    (h : is_opened e = true)
    (hm : matches_glob env (name_after e name) pattern = true) :
    find_joystick_loop env loglevel pattern (e :: rest) name w
      = (e.open_result,
          if 0 < loglevel then
            to_stderr (.text ("found device " ++ device_path_of e.d_name ++ "\n"))
              (sys_closedir (sys_open e.open_result w))
          else sys_closedir (sys_open e.open_result w)) := by
  rw [find_joystick_loop]
  simp only [is_opened, Bool.and_eq_true, decide_eq_true_eq, is_candidate_iff] at h
  unfold name_after at hm
  simp [h.1, h.2, hm]

theorem find_joystick_loop_miss (env : Env) (loglevel : Int) (pattern : String)
    (e : DirEntry) (rest : List DirEntry) (name : String) (w : World)
    (h : is_opened e = true)
    (hm : matches_glob env (name_after e name) pattern = false) :
    find_joystick_loop env loglevel pattern (e :: rest) name w
      = find_joystick_loop env loglevel pattern rest (name_after e name)
          (sys_close e.open_result (sys_open e.open_result w)) := by
  rw [find_joystick_loop]
  simp only [is_opened, Bool.and_eq_true, decide_eq_true_eq, is_candidate_iff] at h
  unfold name_after at hm ⊢
  simp [h.1, h.2, hm]

theorem is_match_of_miss (env : Env) (pattern : String) (e : DirEntry) (name : String)
    (hm : matches_glob env (name_after e name) pattern = false) :
    is_match env pattern e = false := by
  unfold is_match
  cases hn : e.name_reply with
  | none => simp
  | some n =>
    have : name_after e name = n := by simp [name_after, hn]
    rw [this] at hm
    simp [hm]

theorem is_match_of_not_opened (env : Env) (pattern : String) (e : DirEntry)
    (h : is_opened e = false) : is_match env pattern e = false := by
  simp [is_match, h]

theorem find_joystick_loop_spec (env : Env) (loglevel : Int) (pattern : String)
    (entries : List DirEntry) (name : String) (w : World) :
    locator_frame w (find_joystick_loop env loglevel pattern entries name w).2
    ∧ (find_joystick_loop env loglevel pattern entries name w).2.dir_open = false
    ∧ (((find_joystick_loop env loglevel pattern entries name w).1 = -1
        ∧ (find_joystick_loop env loglevel pattern entries name w).2.open_fds = w.open_fds
        ∧ (find_joystick_loop env loglevel pattern entries name w).2.closed_fds
            = w.closed_fds ++ opened_handles entries
        ∧ (∀ e ∈ entries, is_match env pattern e = false)
        ∧ (find_joystick_loop env loglevel pattern entries name w).2.stderr = w.stderr)
      ∨ ∃ pre e post, entries = pre ++ e :: post ∧ is_opened e = true
        ∧ (find_joystick_loop env loglevel pattern entries name w).1 = e.open_result
        ∧ (find_joystick_loop env loglevel pattern entries name w).2.open_fds
            = e.open_result :: w.open_fds
        ∧ (find_joystick_loop env loglevel pattern entries name w).2.closed_fds
            = w.closed_fds ++ opened_handles pre
        ∧ (∀ e1 ∈ pre, is_match env pattern e1 = false)
        ∧ (∀ n, e.name_reply = some n → matches_glob env n pattern = true)) := by
  induction entries generalizing name w with
  | nil =>
    simp [find_joystick_loop, locator_frame, sys_closedir, opened_handles]
  | cons e rest ih =>
    by_cases hop : is_opened e = true
    · have hfd : 0 ≤ e.open_result := by
        simp only [is_opened, Bool.and_eq_true, decide_eq_true_eq] at hop
        exact hop.2
      by_cases hm : matches_glob env (name_after e name) pattern = true
      · rw [find_joystick_loop_hit env loglevel pattern e rest name w hop hm]
        refine ⟨?_, ?_, Or.inr ⟨[], e, rest, rfl, hop, rfl, ?_, ?_, ?_, ?_⟩⟩
        · unfold locator_frame sys_open sys_closedir to_stderr
          split_ifs <;> simp
        · unfold sys_open sys_closedir to_stderr
          split_ifs <;> simp
        · unfold sys_open sys_closedir to_stderr
          split_ifs <;> simp
        · unfold sys_open sys_closedir to_stderr
          split_ifs <;> simp [opened_handles]
        · intro e1 he1
          simp at he1
        · intro n hn
          have : name_after e name = n := by simp [name_after, hn]
          rw [← this]
          exact hm
      · have hm : matches_glob env (name_after e name) pattern = false := by simpa using hm
        rw [find_joystick_loop_miss env loglevel pattern e rest name w hop hm]
        obtain ⟨h1, h2, h3⟩ := ih (name_after e name)
          (sys_close e.open_result (sys_open e.open_result w))
        have hw1 : (sys_close e.open_result (sys_open e.open_result w)).open_fds = w.open_fds := by
          simp [sys_close, sys_open, hfd]
        have hw2 : (sys_close e.open_result (sys_open e.open_result w)).closed_fds
            = w.closed_fds ++ [e.open_result] := by
          simp [sys_close, sys_open, hfd]
        have hw3 : (sys_close e.open_result (sys_open e.open_result w)).stderr = w.stderr := by
          simp [sys_close, sys_open, hfd]
        have hmiss := is_match_of_miss env pattern e name hm
        refine ⟨?_, h2, ?_⟩
        · unfold locator_frame at h1 ⊢
          simpa [sys_close, sys_open, hfd] using h1
        · rcases h3 with ⟨ha, hb, hcl, hall, herr⟩ | ⟨pre, e1, post, he, ho, hr, hb, hcl, hall, hn⟩
          · left
            refine ⟨ha, hb.trans hw1, ?_, ?_, herr.trans hw3⟩
            · rw [hcl, hw2]
              simp [opened_handles, List.filter_cons, hop]
            · intro e1 he1
              rcases List.mem_cons.1 he1 with h | h
              · rw [h]; exact hmiss
              · exact hall e1 h
          · right
            refine ⟨e :: pre, e1, post, by simp [he], ho, hr, ?_, ?_, ?_, hn⟩
            · rw [hb, hw1]
            · rw [hcl, hw2]
              simp [opened_handles, List.filter_cons, hop]
            · intro e2 he2
              rcases List.mem_cons.1 he2 with h | h
              · rw [h]; exact hmiss
              · exact hall e2 h
    · have hop : is_opened e = false := by simpa using hop
      rw [find_joystick_loop_skip env loglevel pattern e rest name w hop]
      have hmiss := is_match_of_not_opened env pattern e hop
      obtain ⟨h1, h2, h3⟩ := ih name w
      refine ⟨h1, h2, ?_⟩
      rcases h3 with ⟨ha, hb, hcl, hall, herr⟩ | ⟨pre, e1, post, he, ho, hr, hb, hcl, hall, hn⟩
      · left
        refine ⟨ha, hb, ?_, ?_, herr⟩
        · rw [hcl]
          simp [opened_handles, List.filter_cons, hop]
        · intro e1 he1
          rcases List.mem_cons.1 he1 with h | h
          · rw [h]; exact hmiss
          · exact hall e1 h
      · right
        refine ⟨e :: pre, e1, post, by simp [he], ho, hr, hb, ?_, ?_, hn⟩
        · rw [hcl]
          simp [opened_handles, List.filter_cons, hop]
        · intro e2 he2
          rcases List.mem_cons.1 he2 with h | h
          · rw [h]; exact hmiss
          · exact hall e2 h

theorem find_joystick_device_some (env : Env) (loglevel : Int) (pattern : String) (w : World)
    (entries : List DirEntry) (h : env.dev_input = some entries) :
    find_joystick_device env loglevel pattern w
      = find_joystick_loop env loglevel pattern entries env.name_init
          { w with dir_open := true } := by
  simp [find_joystick_device, h]

theorem find_joystick_device_none (env : Env) (loglevel : Int) (pattern : String) (w : World)
    (h : env.dev_input = none) :
    find_joystick_device env loglevel pattern w
      = (-1, to_stderr (.perror "failed to open /dev/input") w) := by
  simp [find_joystick_device, h]

/-- C5 (the locator returns the first match): with `/dev/input` listed as
`entries` and every opened candidate reporting a name, `find_joystick_device`
returns the handle of the first entry that is a character device, has a file
name beginning with "event", opens, and reports a name matching the pattern;
entries that fail one of these are passed over, and the result is -1 exactly
when no entry satisfies all four. -/
theorem locator_first_match (env : Env) (loglevel : Int) (pattern : String) (w : World)
    (entries : List DirEntry)
    (hdir : env.dev_input = some entries)
    (hnames : ∀ e ∈ entries, is_opened e = true → e.name_reply ≠ none) :
    (find_joystick_device env loglevel pattern w).1 =
        (match entries.find? (is_match env pattern) with
         | some e => e.open_result
         | none => -1)
    ∧ ((find_joystick_device env loglevel pattern w).1 = -1 ↔
        ∀ e ∈ entries, is_match env pattern e = false) := by
  rw [find_joystick_device_some env loglevel pattern w entries hdir]
  obtain ⟨_, _, h3⟩ := find_joystick_loop_spec env loglevel pattern entries env.name_init
    { w with dir_open := true }
  rcases h3 with ⟨ha, _, _, hall, _⟩ | ⟨pre, e, post, he, ho, hr, _, _, hall, hn⟩
  · have hnone : entries.find? (is_match env pattern) = none := by
      rw [List.find?_eq_none]
      intro e he
      simp [hall e he]
    rw [hnone, ha]
    exact ⟨rfl, ⟨fun _ => hall, fun _ => rfl⟩⟩
  · have hmem : e ∈ entries := by rw [he]; simp
    have hmatch : is_match env pattern e = true := by
      cases hname : e.name_reply with
      | none => exact absurd hname (hnames e hmem ho)
      | some n => simp [is_match, ho, hname, hn n hname]
    have hpre : pre.find? (is_match env pattern) = none := by
      rw [List.find?_eq_none]
      intro e1 he1
      simp [hall e1 he1]
    have hfind : entries.find? (is_match env pattern) = some e := by
      rw [he, List.find?_append, hpre]
      simp [List.find?_cons, hmatch]
    have hfd : 0 ≤ e.open_result := by
      simp only [is_opened, Bool.and_eq_true, decide_eq_true_eq] at ho
      exact ho.2
    rw [hfind, hr]
    refine ⟨rfl, ?_⟩
    constructor
    · intro h
      omega
    · intro h
      rw [h e hmem] at hmatch
      exact absurd hmatch (by decide)

/-- Instance of C5 on the concrete system: the pattern `*Pad*` yields the handle
of `event2`, the first of the two pads, after `event0` was opened and closed
and `event1` failed to open. -/
theorem locator_first_match_witness :
    demo_env.dev_input = some
      [ { d_type := 4, d_name := ".", open_result := -1, name_reply := none },
        { d_type := 4, d_name := "by-id", open_result := -1, name_reply := none },
        { d_type := DT_CHR, d_name := "event0", open_result := 3,
          name_reply := some "Power Button" },
        { d_type := DT_CHR, d_name := "event1", open_result := -1, name_reply := none },
        { d_type := DT_CHR, d_name := "event2", open_result := 3,
          name_reply := some "Generic GamePad" },
        { d_type := DT_CHR, d_name := "mice", open_result := 3, name_reply := none },
        { d_type := DT_CHR, d_name := "event3", open_result := 3,
          name_reply := some "Other GamePad" } ]
    ∧ (find_joystick_device demo_env 0 "*Pad*" World.init).1 = 3
    ∧ (find_joystick_device demo_env 0 "*Pad*" World.init).2.closed_fds = [3] :=
  ⟨rfl,
    (locator_first_match demo_env 0 "*Pad*" World.init _ rfl (by decide)).1.trans (by decide),
    by decide⟩

/-- C10 (handle discipline of the locator): for every listing and pattern, when
`find_joystick_device` returns, the directory stream it opened is closed; on a
match the returned handle is the only handle of the locator left open, the
handles closed are exactly those of the opened candidates before the returned
entry, none of which matched, and the returned handle was not closed; on
not-found every handle the locator opened has been closed again. -/
theorem locator_handle_discipline (env : Env) (loglevel : Int) (pattern : String) (w : World) :
    ∃ fd w1, find_joystick_device env loglevel pattern w = (fd, w1)
      ∧ (env.dev_input ≠ none → w1.dir_open = false)
      ∧ (env.dev_input = none →
          fd = -1 ∧ w1.open_fds = w.open_fds ∧ w1.closed_fds = w.closed_fds
            ∧ w1.dir_open = w.dir_open)
      ∧ (∀ entries, env.dev_input = some entries →
          (fd = -1 ∧ w1.open_fds = w.open_fds
            ∧ w1.closed_fds = w.closed_fds ++ opened_handles entries
            ∧ ∀ e ∈ entries, is_match env pattern e = false)
          ∨ ∃ pre e post, entries = pre ++ e :: post ∧ is_opened e = true
            ∧ fd = e.open_result ∧ 0 ≤ fd
            ∧ w1.open_fds = fd :: w.open_fds
            ∧ w1.closed_fds = w.closed_fds ++ opened_handles pre
            ∧ ∀ e1 ∈ pre, is_match env pattern e1 = false) := by
  refine ⟨(find_joystick_device env loglevel pattern w).1,
    (find_joystick_device env loglevel pattern w).2, rfl, ?_, ?_, ?_⟩
  · intro h
    cases hd : env.dev_input with
    | none => exact absurd hd h
    | some entries =>
      rw [find_joystick_device_some env loglevel pattern w entries hd]
      exact (find_joystick_loop_spec env loglevel pattern entries env.name_init _).2.1
  · intro h
    rw [find_joystick_device_none env loglevel pattern w h]
    simp [to_stderr]
  · intro entries hd
    rw [find_joystick_device_some env loglevel pattern w entries hd]
    obtain ⟨_, _, h3⟩ := find_joystick_loop_spec env loglevel pattern entries env.name_init
      { w with dir_open := true }
    rcases h3 with ⟨ha, hb, hcl, hall, _⟩ | ⟨pre, e, post, he, ho, hr, hb, hcl, hall, _⟩
    · exact Or.inl ⟨ha, hb, hcl, hall⟩
    · have hfd : 0 ≤ e.open_result := by
        simp only [is_opened, Bool.and_eq_true, decide_eq_true_eq] at ho
        exact ho.2
      refine Or.inr ⟨pre, e, post, he, ho, hr, ?_, ?_, hcl, hall⟩
      · rw [hr]; exact hfd
      · rw [hb, hr]

/-- C9 (discovery failure): for every pattern, when `/dev/input` cannot be opened
or every opened candidate reports a name that does not match the pattern, the
program prints on standard error the line `failed to locate device matching`
followed by the quoted pattern, ends with status 1, and has neither opened
`/dev/uinput`, nor set up or created a virtual device, nor written any event. -/
theorem discovery_failure (env : Env) (loglevel : Int) (pattern : String)
    (h : env.dev_input = none ∨
      ∃ entries, env.dev_input = some entries ∧
        ∀ e ∈ entries, is_opened e = true →
          e.name_reply.map (fun n => matches_glob env n pattern) = some false) :
    ∃ w, main env loglevel pattern = (.exited 1, w)
      ∧ w.stderr.getLast? =
          some (.text ("failed to locate device matching \"" ++ pattern ++ "\"\n"))
      ∧ w.uinput_opens = 0 ∧ w.requests = [] ∧ w.evbits = [] ∧ w.keybits = [] ∧ w.setup = none
      ∧ w.device_created = false ∧ w.written = [] ∧ w.reads_done = 0
      ∧ w.open_fds = [] ∧ w.dir_open = false := by
  have key : ∃ w1, find_joystick_device env loglevel pattern World.init = (-1, w1)
      ∧ locator_frame World.init w1 ∧ w1.open_fds = [] ∧ w1.dir_open = false := by
    rcases h with h | ⟨entries, hd, hall⟩
    · rw [find_joystick_device_none env loglevel pattern _ h]
      exact ⟨_, rfl, by simp [locator_frame, to_stderr], by simp [to_stderr, World.init],
        by simp [to_stderr, World.init]⟩
    · rw [find_joystick_device_some env loglevel pattern _ entries hd]
      obtain ⟨h1, h2, h3⟩ := find_joystick_loop_spec env loglevel pattern entries env.name_init
        { World.init with dir_open := true }
      rcases h3 with ⟨ha, hb, _, _, _⟩ | ⟨pre, e, post, he, ho, _, _, _, _, hn⟩
      · refine ⟨_, Prod.ext ha rfl, ?_, ?_, h2⟩
        · simpa [locator_frame] using h1
        · simpa using hb
      · exfalso
        have hmem : e ∈ entries := by rw [he]; simp
        have hf := hall e hmem ho
        cases hname : e.name_reply with
        | none => simp [hname] at hf
        | some n =>
          have := hn n hname
          simp [hname, this] at hf
  obtain ⟨w1, hfind, hframe, hfds, hdir⟩ := key
  obtain ⟨f1, f0, f2, f3, f4, f5, f6, f7⟩ := hframe
  refine ⟨to_stderr (.text ("failed to locate device matching \"" ++ pattern ++ "\"\n")) w1,
    ?_, ?_, ?_, ?_, ?_, ?_, ?_, ?_, ?_, ?_, ?_, ?_⟩
  · simp [main, hfind, EXIT_FAILURE]
  · simp [to_stderr]
  · simpa [to_stderr] using f1
  · simpa [to_stderr] using f0
  · simpa [to_stderr] using f2
  · simpa [to_stderr] using f3
  · simpa [to_stderr] using f4
  · simpa [to_stderr] using f5
  · simpa [to_stderr] using f6
  · simpa [to_stderr] using f7
  · simpa [to_stderr] using hfds
  · simpa [to_stderr] using hdir

/-- Instance of C9 on the end-to-end scenario: the pattern `NoSuchDevice*`
against the system whose only device is "Generic GamePad". -/
theorem discovery_failure_witness :
    (gamepad_env.dev_input = none ∨
      ∃ entries, gamepad_env.dev_input = some entries ∧
        ∀ e ∈ entries, is_opened e = true →
          e.name_reply.map (fun n => matches_glob gamepad_env n "NoSuchDevice*") = some false)
    ∧ ∃ w, main gamepad_env 0 "NoSuchDevice*" = (.exited 1, w)
      ∧ w.stderr.getLast? =
          some (.text ("failed to locate device matching \"" ++ "NoSuchDevice*" ++ "\"\n"))
      ∧ w.uinput_opens = 0 ∧ w.requests = [] ∧ w.evbits = [] ∧ w.keybits = [] ∧ w.setup = none
      ∧ w.device_created = false ∧ w.written = [] ∧ w.reads_done = 0
      ∧ w.open_fds = [] ∧ w.dir_open = false :=
  ⟨Or.inr ⟨_, rfl, by decide⟩,
    discovery_failure gamepad_env 0 "NoSuchDevice*" (Or.inr ⟨_, rfl, by decide⟩)⟩

/-! ## Virtual device setup and the whole program: facts -/

theorem ioctl_frame_refl (w : World) : ioctl_frame w w := by
  simp [ioctl_frame]

theorem ioctl_frame_trans (w w1 w2 : World) (h1 : ioctl_frame w w1) (h2 : ioctl_frame w1 w2) :
    ioctl_frame w w2 := by
  obtain ⟨a1, a2, a3, a4, a5, a6, a7⟩ := h1
  obtain ⟨b1, b2, b3, b4, b5, b6, b7⟩ := h2
  exact ⟨b1.trans a1, b2.trans a2, b3.trans a3, b4.trans a4, b5.trans a5, b6.trans a6,
    b7.trans a7⟩

theorem sys_ioctl_frame (r : Int) (req : IoctlReq) (w : World) :
    ioctl_frame w (sys_ioctl r req w) := by
  unfold sys_ioctl ioctl_frame
  by_cases h : r < 0
  · simp [h]
  · cases req <;> simp [h]

theorem setup_uinput_device_ret (env : Env) (fd : Int) (w : World)
    (h1 : 0 ≤ env.ioctl fd (.UI_DEV_SETUP jsmapper_setup))
    (h2 : 0 ≤ env.ioctl fd .UI_DEV_CREATE) :
    ∃ w1, setup_uinput_device env fd w = .ret () w1 ∧ ioctl_frame w w1
      ∧ w1.device_created = true := by
  have n1 : ¬ env.ioctl fd (.UI_DEV_SETUP jsmapper_setup) < 0 := by omega
  have n2 : ¬ env.ioctl fd .UI_DEV_CREATE < 0 := by omega
  refine ⟨_, by simp only [setup_uinput_device, n1, n2, if_false]; rfl, ?_, ?_⟩
  · repeat (first
      | exact ioctl_frame_refl _
      | (refine ioctl_frame_trans _ _ _ ?_ (sys_ioctl_frame _ _ _)))
  · simp [sys_ioctl, n2]

theorem setup_uinput_device_exit (env : Env) (fd : Int) (w : World)
    (h : env.ioctl fd (.UI_DEV_SETUP jsmapper_setup) < 0 ∨ env.ioctl fd .UI_DEV_CREATE < 0) :
    ∃ w1, setup_uinput_device env fd w = .exit EXIT_FAILURE w1 := by
  by_cases h1 : env.ioctl fd (.UI_DEV_SETUP jsmapper_setup) < 0
  · exact ⟨_, by simp only [setup_uinput_device, h1, if_true]; rfl⟩
  · have h2 : env.ioctl fd .UI_DEV_CREATE < 0 := by
      rcases h with h | h
      · exact absurd h h1
      · exact h
    exact ⟨_, by simp only [setup_uinput_device, h1, h2, if_true, if_false]; rfl⟩

/-- C7 (the code at the failing input): when the request that registers `KEY_UP`
fails and the others succeed, `setup_uinput_device` returns normally, with the
device created and `KEY_UP` not registered, and `main` goes on into the
translation loop, where it writes a press of `KEY_UP` and waits for the next
event. -/
theorem setup_ignores_keybit_failure :
    keybit_fail_env.ioctl 4 (.UI_SET_KEYBIT KEY_UP) = -1
    ∧ (∃ w, setup_uinput_device keybit_fail_env 4 World.init = .ret () w
        ∧ w.device_created = true
        ∧ w.keybits = [KEY_DOWN, KEY_LEFT, KEY_RIGHT])
    ∧ (main keybit_fail_env 0 "*Pad*").1 = .reading
    ∧ (main keybit_fail_env 0 "*Pad*").2.written = press 4 KEY_UP := by
  refine ⟨by decide, ⟨_, rfl, by decide, by decide⟩, by decide, by decide⟩

theorem find_joystick_device_found (env : Env) (loglevel : Int) (pattern : String)
    (h : 0 ≤ (find_joystick_device env loglevel pattern World.init).1) :
    locator_frame World.init (find_joystick_device env loglevel pattern World.init).2
    ∧ (find_joystick_device env loglevel pattern World.init).2.open_fds
        = [(find_joystick_device env loglevel pattern World.init).1] := by
  cases hd : env.dev_input with
  | none =>
    rw [find_joystick_device_none env loglevel pattern _ hd] at h
    exact absurd h (by decide)
  | some entries =>
    rw [find_joystick_device_some env loglevel pattern _ entries hd] at h ⊢
    obtain ⟨h1, _, h3⟩ := find_joystick_loop_spec env loglevel pattern entries env.name_init
      { World.init with dir_open := true }
    rcases h3 with ⟨ha, _, _, _, _⟩ | ⟨pre, e, post, _, _, hr, hb, _, _, _⟩
    · rw [ha] at h
      exact absurd h (by decide)
    · refine ⟨?_, ?_⟩
      · simpa [locator_frame] using h1
      · rw [hb, hr]
        simp [World.init]

/-- C8 (a read failure ends the session cleanly): in a run where the locator
found the joystick, `/dev/uinput` opened, the device was set up and created and
the writes succeed, when the reads deliver the events `evs` and then fail, the
program has written exactly what the loop writes for `evs`, has made
`evs.length + 1` reads and none after the failing one, has then issued
`UI_DEV_DESTROY`, closed the uinput descriptor and the joystick descriptor in
that order, leaving no descriptor open, and has ended with status 0. -/
theorem read_failure_ends_session (env : Env) (loglevel : Int) (pattern : String)
    (evs : List input_event) (rest : List (Option input_event))
    (hfind : 0 ≤ (find_joystick_device env loglevel pattern World.init).1)
    (hopen : 0 ≤ env.uinput_open)
    (hsetup : 0 ≤ env.ioctl env.uinput_open (.UI_DEV_SETUP jsmapper_setup))
    (hcreate : 0 ≤ env.ioctl env.uinput_open .UI_DEV_CREATE)
    (hreads : env.reads = evs.map some ++ none :: rest)
    (hw : ∀ n, env.write_ok n = true) :
    ∃ w2 s3 w3 w4,
      setup_uinput_device env env.uinput_open
          (sys_open env.uinput_open
            { (find_joystick_device env loglevel pattern World.init).2 with
              uinput_opens :=
                (find_joystick_device env loglevel pattern World.init).2.uinput_opens + 1 })
        = .ret () w2
      ∧ w2.written = [] ∧ w2.reads_done = 0
      ∧ main_loop env loglevel env.uinput_open (evs.map some)
          { last_x_key := env.last_x_init, last_y_key := env.last_y_init } w2 = .waiting s3 w3
      ∧ main env loglevel pattern = (.exited 0, w4)
      ∧ w4.written = w3.written
      ∧ w4.reads_done = evs.length + 1
      ∧ w4.stderr = w3.stderr ++ [.perror "failed to read input event"]
      ∧ w4.requests = w3.requests ++ [.UI_DEV_DESTROY]
      ∧ (0 ≤ env.ioctl env.uinput_open .UI_DEV_DESTROY → w4.device_created = false)
      ∧ w4.closed_fds = w3.closed_fds
          ++ [env.uinput_open, (find_joystick_device env loglevel pattern World.init).1]
      ∧ w4.open_fds = [] := by
  obtain ⟨hframe, hfds⟩ := find_joystick_device_found env loglevel pattern hfind
  obtain ⟨f1, f0, f2, f3, f4, f5, f6, f7⟩ := hframe
  generalize hjs : (find_joystick_device env loglevel pattern World.init).1 = js at hfind hfds ⊢
  generalize hw1 : (find_joystick_device env loglevel pattern World.init).2 = w1
    at hfds f1 f0 f2 f3 f4 f5 f6 f7 ⊢
  have hfindeq : find_joystick_device env loglevel pattern World.init = (js, w1) :=
    Prod.ext hjs hw1
  obtain ⟨w2, hs, hfr, _⟩ := setup_uinput_device_ret env env.uinput_open
    (sys_open env.uinput_open { w1 with uinput_opens := w1.uinput_opens + 1 }) hsetup hcreate
  obtain ⟨g1, g2, g3, g4, g5, g6, g7⟩ := hfr
  have hloop := main_loop_eq env loglevel env.uinput_open hw evs
    { last_x_key := env.last_x_init, last_y_key := env.last_y_init } w2
  have hfull := main_loop_append env loglevel env.uinput_open evs (none :: rest) _ _ w2 _ hloop
  rw [← hreads] at hfull
  have n1 : ¬ js < 0 := by omega
  have n2 : ¬ env.uinput_open < 0 := by omega
  have hw2w : w2.written = [] := by
    rw [g5]; simpa [sys_open, hopen, World.init] using f6
  have hw2r : w2.reads_done = 0 := by
    rw [g6]; simpa [sys_open, hopen, World.init] using f7
  have hw2o : w2.open_fds = [env.uinput_open, js] := by
    rw [g1]; simp [sys_open, hopen, hfds]
  generalize hw3 : loop_world loglevel env.uinput_open
    { last_x_key := env.last_x_init, last_y_key := env.last_y_init } evs w2 = w3 at hloop hfull
  have hw3r : w3.reads_done = evs.length := by
    rw [← hw3]; simp [loop_world, hw2r]
  have hw3o : w3.open_fds = [env.uinput_open, js] := by
    rw [← hw3]; simp [loop_world, hw2o]
  refine ⟨w2, _, w3,
    sys_close js (sys_close env.uinput_open
      (sys_ioctl (env.ioctl env.uinput_open .UI_DEV_DESTROY) .UI_DEV_DESTROY
        (to_stderr (.perror "failed to read input event")
          { w3 with reads_done := w3.reads_done + 1 }))),
    hs, hw2w, hw2r, hloop, ?_, ?_, ?_, ?_, ?_, ?_, ?_, ?_⟩
  · simp only [main, hfindeq, n1, n2, if_false, hs, hfull, main_loop, EXIT_SUCCESS]
  · simp [sys_close, sys_ioctl, to_stderr]
    split_ifs <;> rfl
  · simp [sys_close, sys_ioctl, to_stderr]
    split_ifs <;> simp [hw3r]
  · simp [sys_close, sys_ioctl, to_stderr]
    split_ifs <;> rfl
  · simp [sys_close, sys_ioctl, to_stderr]
    split_ifs <;> rfl
  · intro hd
    have n3 : ¬ env.ioctl env.uinput_open .UI_DEV_DESTROY < 0 := by omega
    simp [sys_close, sys_ioctl, to_stderr, n3]
  · simp [sys_close, sys_ioctl, to_stderr]
    split_ifs <;> rfl
  · simp [sys_close, sys_ioctl, to_stderr]
    split_ifs <;> simp [hw3o]

/-- Instance of C8 on the concrete system: two events are read, the third read
fails, and a fourth read result that would be available is never asked for. -/
theorem read_failure_ends_session_witness :
    0 ≤ (find_joystick_device read_fail_env 0 "*Pad*" World.init).1
    ∧ 0 ≤ read_fail_env.uinput_open
    ∧ read_fail_env.reads = [axis_sample ABS_X 0, axis_sample ABS_X 127].map some
        ++ none :: [some (axis_sample ABS_X 255)]
    ∧ (∀ n, read_fail_env.write_ok n = true)
    ∧ (main read_fail_env 0 "*Pad*").1 = .exited 0
    ∧ (main read_fail_env 0 "*Pad*").2.reads_done = 3
    ∧ (main read_fail_env 0 "*Pad*").2.open_fds = [] := by
  obtain ⟨w2, s3, w3, w4, _, _, _, _, hmain, _, hr, _, _, _, _, ho⟩ :=
    read_failure_ends_session read_fail_env 0 "*Pad*"
      [axis_sample ABS_X 0, axis_sample ABS_X 127] [some (axis_sample ABS_X 255)]
      (by decide) (by decide) (by decide) (by decide) rfl (fun _ => rfl)
  rw [hmain]
  exact ⟨by decide, by decide, rfl, fun _ => rfl, rfl, hr, ho⟩

/-! ## Keys held down: facts -/

theorem held_after_append (acc out : List (Int × input_event)) (key : Int) :
    held_after (acc ++ out) key = out.foldl (held_step key) (held_after acc key) := by
  simp [held_after, List.foldl_append]

theorem held_after_press (acc : List (Int × input_event)) (fd k key : Int) :
    held_after (acc ++ press fd k) key = if k = key then true else held_after acc key := by
  rw [held_after_append]
  simp [press, key_event, syn_event, held_step, EV_KEY, EV_SYN]

theorem held_after_release (acc : List (Int × input_event)) (fd k key : Int) :
    held_after (acc ++ release fd k) key = if k = key then false else held_after acc key := by
  rw [held_after_append]
  simp [release, key_event, syn_event, held_step, EV_KEY, EV_SYN]

theorem held_after_key_only (acc : List (Int × input_event)) (fd k v key : Int) :
    held_after (acc ++ [key_event fd k v]) key
      = held_after (acc ++ [key_event fd k v, syn_event fd]) key := by
  rw [held_after_append, held_after_append]
  simp [key_event, syn_event, held_step, EV_KEY, EV_SYN]

theorem inv_x_press_right (fd : Int) (acc : List (Int × input_event)) (s : AxisState)
    (lv : Option Int) (hinv : inv_x acc s lv) (hnl : lv ≠ some 255) :
    inv_x (acc ++ press fd KEY_RIGHT) { s with last_x_key := KEY_RIGHT } (some 0) := by
  obtain ⟨i1, _, _, _⟩ := hinv
  refine ⟨?_, fun _ => rfl, fun _ => rfl, fun h => by simp at h⟩
  intro h
  rw [held_after_press, if_neg (by decide)] at h
  exact absurd (i1 h) hnl

theorem inv_x_press_left (fd : Int) (acc : List (Int × input_event)) (s : AxisState)
    (lv : Option Int) (hinv : inv_x acc s lv) (hnl : lv ≠ some 0) :
    inv_x (acc ++ press fd KEY_LEFT) { s with last_x_key := KEY_LEFT } (some 255) := by
  obtain ⟨_, i2, _, _⟩ := hinv
  refine ⟨fun _ => rfl, ?_, fun h => by simp at h, fun _ => rfl⟩
  intro h
  rw [held_after_press, if_neg (by decide)] at h
  exact absurd (i2 h) hnl

theorem inv_x_release (fd : Int) (acc : List (Int × input_event)) (s : AxisState)
    (lv : Option Int) (hinv : inv_x acc s lv) :
    inv_x (acc ++ release fd (s.last_x_key % 65536)) s (some 127) := by
  obtain ⟨i1, i2, i3, i4⟩ := hinv
  refine ⟨?_, ?_, fun h => by simp at h, fun h => by simp at h⟩
  · intro h
    exfalso
    rw [held_after_release] at h
    by_cases hk : s.last_x_key % 65536 = KEY_LEFT
    · simp [hk] at h
    · rw [if_neg hk] at h
      rw [i4 (i1 h)] at hk
      exact hk (by decide)
  · intro h
    exfalso
    rw [held_after_release] at h
    by_cases hk : s.last_x_key % 65536 = KEY_RIGHT
    · simp [hk] at h
    · rw [if_neg hk] at h
      rw [i3 (i2 h)] at hk
      exact hk (by decide)

theorem inv_x_other_press (fd k : Int) (acc : List (Int × input_event)) (s s1 : AxisState)
    (lv : Option Int) (hinv : inv_x acc s lv) (hs : s1.last_x_key = s.last_x_key)
    (hl : k ≠ KEY_LEFT) (hr : k ≠ KEY_RIGHT) :
    inv_x (acc ++ press fd k) s1 lv := by
  obtain ⟨i1, i2, i3, i4⟩ := hinv
  refine ⟨?_, ?_, fun h => hs.trans (i3 h), fun h => hs.trans (i4 h)⟩
  · intro h
    rw [held_after_press, if_neg hl] at h
    exact i1 h
  · intro h
    rw [held_after_press, if_neg hr] at h
    exact i2 h

theorem inv_x_other_release (fd k : Int) (acc : List (Int × input_event)) (s : AxisState)
    (lv : Option Int) (hinv : inv_x acc s lv) :
    inv_x (acc ++ release fd k) s lv := by
  obtain ⟨i1, i2, i3, i4⟩ := hinv
  refine ⟨?_, ?_, i3, i4⟩
  · intro h
    rw [held_after_release] at h
    by_cases hk : k = KEY_LEFT
    · simp [hk] at h
    · rw [if_neg hk] at h
      exact i1 h
  · intro h
    rw [held_after_release] at h
    by_cases hk : k = KEY_RIGHT
    · simp [hk] at h
    · rw [if_neg hk] at h
      exact i2 h

theorem inv_x_step (fd : Int) (acc : List (Int × input_event)) (s : AxisState)
    (lv : Option Int) (ev : input_event)
    (hinv : inv_x acc s lv) (hok : reversal_ok ABS_X lv ev = true) :
    inv_x (acc ++ dispatch_out fd s ev) (dispatch_state s ev) (next_sample ABS_X lv ev) := by
  by_cases ht : ev.type = EV_ABS
  · by_cases hc : ev.code = ABS_X
    · by_cases h0 : ev.value = 0
      · have hs : is_sample ABS_X ev = true := by simp [is_sample, ht, hc, h0]
        have hnl : lv ≠ some 255 := by
          intro h
          simp [reversal_ok, hs, h, h0] at hok
        have e1 : dispatch_out fd s ev = press fd KEY_RIGHT := by
          simp [dispatch_out, ht, hc, h0]
        have e2 : dispatch_state s ev = { s with last_x_key := KEY_RIGHT } := by
          simp [dispatch_state, ht, hc, h0]
        have e3 : next_sample ABS_X lv ev = some 0 := by simp [next_sample, hs, h0]
        rw [e1, e2, e3]
        exact inv_x_press_right fd acc s lv hinv hnl
      · by_cases h255 : ev.value = 255
        · have hs : is_sample ABS_X ev = true := by simp [is_sample, ht, hc, h255]
          have hnl : lv ≠ some 0 := by
            intro h
            simp [reversal_ok, hs, h, h255] at hok
          have e1 : dispatch_out fd s ev = press fd KEY_LEFT := by
            simp [dispatch_out, ht, hc, h255]
          have e2 : dispatch_state s ev = { s with last_x_key := KEY_LEFT } := by
            simp [dispatch_state, ht, hc, h255]
          have e3 : next_sample ABS_X lv ev = some 255 := by simp [next_sample, hs, h255]
          rw [e1, e2, e3]
          exact inv_x_press_left fd acc s lv hinv hnl
        · by_cases h127 : ev.value = 127
          · have hs : is_sample ABS_X ev = true := by simp [is_sample, ht, hc, h127]
            have e1 : dispatch_out fd s ev = release fd (s.last_x_key % 65536) := by
              simp [dispatch_out, ht, hc, h127]
            have e2 : dispatch_state s ev = s := by
              simp [dispatch_state, ht, hc, h127]
            have e3 : next_sample ABS_X lv ev = some 127 := by simp [next_sample, hs, h127]
            rw [e1, e2, e3]
            exact inv_x_release fd acc s lv hinv
          · have hs : is_sample ABS_X ev = false := by simp [is_sample, h0, h127, h255]
            have e1 : dispatch_out fd s ev = [] := by
              simp [dispatch_out, ht, hc, h0, h127, h255]
            have e2 : dispatch_state s ev = s := by
              simp [dispatch_state, ht, hc, h0, h255]
            have e3 : next_sample ABS_X lv ev = lv := by simp [next_sample, hs]
            rw [e1, e2, e3, List.append_nil]
            exact hinv
    · have hs : is_sample ABS_X ev = false := by simp [is_sample, hc]
      have e3 : next_sample ABS_X lv ev = lv := by simp [next_sample, hs]
      rw [e3]
      have hne : ¬ ABS_Y = ABS_X := by decide
      by_cases hcy : ev.code = ABS_Y
      · by_cases h0 : ev.value = 0
        · have e1 : dispatch_out fd s ev = press fd KEY_DOWN := by
            simp [dispatch_out, ht, hc, hcy, hne, h0]
          have e2 : dispatch_state s ev = { s with last_y_key := KEY_DOWN } := by
            simp [dispatch_state, ht, hc, hcy, hne, h0]
          rw [e1, e2]
          exact inv_x_other_press fd KEY_DOWN acc s _ lv hinv rfl (by decide) (by decide)
        · by_cases h255 : ev.value = 255
          · have e1 : dispatch_out fd s ev = press fd KEY_UP := by
              simp [dispatch_out, ht, hc, hcy, hne, h255]
            have e2 : dispatch_state s ev = { s with last_y_key := KEY_UP } := by
              simp [dispatch_state, ht, hc, hcy, hne, h255]
            rw [e1, e2]
            exact inv_x_other_press fd KEY_UP acc s _ lv hinv rfl (by decide) (by decide)
          · have e2 : dispatch_state s ev = s := by
              simp [dispatch_state, ht, hc, hcy, hne, h0, h255]
            by_cases h127 : ev.value = 127
            · have e1 : dispatch_out fd s ev = release fd (s.last_y_key % 65536) := by
                simp [dispatch_out, ht, hc, hcy, hne, h127]
              rw [e1, e2]
              exact inv_x_other_release fd _ acc s lv hinv
            · have e1 : dispatch_out fd s ev = [] := by
                simp [dispatch_out, ht, hc, hcy, hne, h0, h255, h127]
              rw [e1, e2, List.append_nil]
              exact hinv
      · have e1 : dispatch_out fd s ev = [] := by
          simp [dispatch_out, ht, hc, hcy]
        have e2 : dispatch_state s ev = s := by
          simp [dispatch_state, ht, hc, hcy]
        rw [e1, e2, List.append_nil]
        exact hinv
  · have hs : is_sample ABS_X ev = false := by simp [is_sample, ht]
    have e1 : dispatch_out fd s ev = [] := by simp [dispatch_out, ht]
    have e2 : dispatch_state s ev = s := by simp [dispatch_state, ht]
    have e3 : next_sample ABS_X lv ev = lv := by simp [next_sample, hs]
    rw [e1, e2, e3, List.append_nil]
    exact hinv

theorem inv_y_press_down (fd : Int) (acc : List (Int × input_event)) (s : AxisState)
    (lv : Option Int) (hinv : inv_y acc s lv) (hnl : lv ≠ some 255) :
    inv_y (acc ++ press fd KEY_DOWN) { s with last_y_key := KEY_DOWN } (some 0) := by
  obtain ⟨i1, _, _, _⟩ := hinv
  refine ⟨?_, fun _ => rfl, fun _ => rfl, fun h => by simp at h⟩
  intro h
  rw [held_after_press, if_neg (by decide)] at h
  exact absurd (i1 h) hnl

theorem inv_y_press_up (fd : Int) (acc : List (Int × input_event)) (s : AxisState)
    (lv : Option Int) (hinv : inv_y acc s lv) (hnl : lv ≠ some 0) :
    inv_y (acc ++ press fd KEY_UP) { s with last_y_key := KEY_UP } (some 255) := by
  obtain ⟨_, i2, _, _⟩ := hinv
  refine ⟨fun _ => rfl, ?_, fun h => by simp at h, fun _ => rfl⟩
  intro h
  rw [held_after_press, if_neg (by decide)] at h
  exact absurd (i2 h) hnl

theorem inv_y_release (fd : Int) (acc : List (Int × input_event)) (s : AxisState)
    (lv : Option Int) (hinv : inv_y acc s lv) :
    inv_y (acc ++ release fd (s.last_y_key % 65536)) s (some 127) := by
  obtain ⟨i1, i2, i3, i4⟩ := hinv
  refine ⟨?_, ?_, fun h => by simp at h, fun h => by simp at h⟩
  · intro h
    exfalso
    rw [held_after_release] at h
    by_cases hk : s.last_y_key % 65536 = KEY_UP
    · simp [hk] at h
    · rw [if_neg hk] at h
      rw [i4 (i1 h)] at hk
      exact hk (by decide)
  · intro h
    exfalso
    rw [held_after_release] at h
    by_cases hk : s.last_y_key % 65536 = KEY_DOWN
    · simp [hk] at h
    · rw [if_neg hk] at h
      rw [i3 (i2 h)] at hk
      exact hk (by decide)

theorem inv_y_other_press (fd k : Int) (acc : List (Int × input_event)) (s s1 : AxisState)
    (lv : Option Int) (hinv : inv_y acc s lv) (hs : s1.last_y_key = s.last_y_key)
    (hl : k ≠ KEY_UP) (hr : k ≠ KEY_DOWN) :
    inv_y (acc ++ press fd k) s1 lv := by
  obtain ⟨i1, i2, i3, i4⟩ := hinv
  refine ⟨?_, ?_, fun h => hs.trans (i3 h), fun h => hs.trans (i4 h)⟩
  · intro h
    rw [held_after_press, if_neg hl] at h
    exact i1 h
  · intro h
    rw [held_after_press, if_neg hr] at h
    exact i2 h

theorem inv_y_other_release (fd k : Int) (acc : List (Int × input_event)) (s : AxisState)
    (lv : Option Int) (hinv : inv_y acc s lv) :
    inv_y (acc ++ release fd k) s lv := by
  obtain ⟨i1, i2, i3, i4⟩ := hinv
  refine ⟨?_, ?_, i3, i4⟩
  · intro h
    rw [held_after_release] at h
    by_cases hk : k = KEY_UP
    · simp [hk] at h
    · rw [if_neg hk] at h
      exact i1 h
  · intro h
    rw [held_after_release] at h
    by_cases hk : k = KEY_DOWN
    · simp [hk] at h
    · rw [if_neg hk] at h
      exact i2 h

theorem inv_y_step (fd : Int) (acc : List (Int × input_event)) (s : AxisState)
    (lv : Option Int) (ev : input_event)
    (hinv : inv_y acc s lv) (hok : reversal_ok ABS_Y lv ev = true) :
    inv_y (acc ++ dispatch_out fd s ev) (dispatch_state s ev) (next_sample ABS_Y lv ev) := by
  have hne : ¬ ABS_Y = ABS_X := by decide
  have hne1 : ¬ ABS_X = ABS_Y := by decide
  by_cases ht : ev.type = EV_ABS
  · by_cases hc : ev.code = ABS_X
    · have hs : is_sample ABS_Y ev = false := by simp [is_sample, hc, hne1]
      have e3 : next_sample ABS_Y lv ev = lv := by simp [next_sample, hs]
      rw [e3]
      by_cases h0 : ev.value = 0
      · have e1 : dispatch_out fd s ev = press fd KEY_RIGHT := by
          simp [dispatch_out, ht, hc, h0]
        have e2 : dispatch_state s ev = { s with last_x_key := KEY_RIGHT } := by
          simp [dispatch_state, ht, hc, h0]
        rw [e1, e2]
        exact inv_y_other_press fd KEY_RIGHT acc s _ lv hinv rfl (by decide) (by decide)
      · by_cases h255 : ev.value = 255
        · have e1 : dispatch_out fd s ev = press fd KEY_LEFT := by
            simp [dispatch_out, ht, hc, h255]
          have e2 : dispatch_state s ev = { s with last_x_key := KEY_LEFT } := by
            simp [dispatch_state, ht, hc, h255]
          rw [e1, e2]
          exact inv_y_other_press fd KEY_LEFT acc s _ lv hinv rfl (by decide) (by decide)
        · have e2 : dispatch_state s ev = s := by
            simp [dispatch_state, ht, hc, h0, h255]
          by_cases h127 : ev.value = 127
          · have e1 : dispatch_out fd s ev = release fd (s.last_x_key % 65536) := by
              simp [dispatch_out, ht, hc, h127]
            rw [e1, e2]
            exact inv_y_other_release fd _ acc s lv hinv
          · have e1 : dispatch_out fd s ev = [] := by
              simp [dispatch_out, ht, hc, h0, h255, h127]
            rw [e1, e2, List.append_nil]
            exact hinv
    · by_cases hcy : ev.code = ABS_Y
      · by_cases h0 : ev.value = 0
        · have hs : is_sample ABS_Y ev = true := by simp [is_sample, ht, hcy, h0]
          have hnl : lv ≠ some 255 := by
            intro h
            simp [reversal_ok, hs, h, h0] at hok
          have e1 : dispatch_out fd s ev = press fd KEY_DOWN := by
            simp [dispatch_out, ht, hcy, hne, h0]
          have e2 : dispatch_state s ev = { s with last_y_key := KEY_DOWN } := by
            simp [dispatch_state, ht, hcy, hne, h0]
          have e3 : next_sample ABS_Y lv ev = some 0 := by simp [next_sample, hs, h0]
          rw [e1, e2, e3]
          exact inv_y_press_down fd acc s lv hinv hnl
        · by_cases h255 : ev.value = 255
          · have hs : is_sample ABS_Y ev = true := by simp [is_sample, ht, hcy, h255]
            have hnl : lv ≠ some 0 := by
              intro h
              simp [reversal_ok, hs, h, h255] at hok
            have e1 : dispatch_out fd s ev = press fd KEY_UP := by
              simp [dispatch_out, ht, hcy, hne, h255]
            have e2 : dispatch_state s ev = { s with last_y_key := KEY_UP } := by
              simp [dispatch_state, ht, hcy, hne, h255]
            have e3 : next_sample ABS_Y lv ev = some 255 := by simp [next_sample, hs, h255]
            rw [e1, e2, e3]
            exact inv_y_press_up fd acc s lv hinv hnl
          · by_cases h127 : ev.value = 127
            · have hs : is_sample ABS_Y ev = true := by simp [is_sample, ht, hcy, h127]
              have e1 : dispatch_out fd s ev = release fd (s.last_y_key % 65536) := by
                simp [dispatch_out, ht, hcy, hne, h127]
              have e2 : dispatch_state s ev = s := by
                simp [dispatch_state, ht, hcy, hne, h127]
              have e3 : next_sample ABS_Y lv ev = some 127 := by simp [next_sample, hs, h127]
              rw [e1, e2, e3]
              exact inv_y_release fd acc s lv hinv
            · have hs : is_sample ABS_Y ev = false := by simp [is_sample, h0, h127, h255]
              have e1 : dispatch_out fd s ev = [] := by
                simp [dispatch_out, ht, hcy, hne, h0, h127, h255]
              have e2 : dispatch_state s ev = s := by
                simp [dispatch_state, ht, hcy, hne, h0, h255]
              have e3 : next_sample ABS_Y lv ev = lv := by simp [next_sample, hs]
              rw [e1, e2, e3, List.append_nil]
              exact hinv
      · have hs : is_sample ABS_Y ev = false := by simp [is_sample, hcy]
        have e1 : dispatch_out fd s ev = [] := by simp [dispatch_out, ht, hc, hcy]
        have e2 : dispatch_state s ev = s := by simp [dispatch_state, ht, hc, hcy]
        have e3 : next_sample ABS_Y lv ev = lv := by simp [next_sample, hs]
        rw [e1, e2, e3, List.append_nil]
        exact hinv
  · have hs : is_sample ABS_Y ev = false := by simp [is_sample, ht]
    have e1 : dispatch_out fd s ev = [] := by simp [dispatch_out, ht]
    have e2 : dispatch_state s ev = s := by simp [dispatch_state, ht]
    have e3 : next_sample ABS_Y lv ev = lv := by simp [next_sample, hs]
    rw [e1, e2, e3, List.append_nil]
    exact hinv

theorem prefix_pair {α : Type} (a b : α) (p : List α) (h : p <+: [a, b]) :
    p = [] ∨ p = [a] ∨ p = [a, b] := by
  cases p with
  | nil => exact Or.inl rfl
  | cons x p1 =>
    rw [List.cons_prefix_cons] at h
    obtain ⟨hx, h1⟩ := h
    cases p1 with
    | nil => exact Or.inr (Or.inl (by rw [hx]))
    | cons y p2 =>
      rw [List.cons_prefix_cons] at h1
      obtain ⟨hy, h2⟩ := h1
      rw [List.prefix_nil] at h2
      exact Or.inr (Or.inr (by rw [hx, hy, h2]))

theorem one_per_axis_of_inv (acc : List (Int × input_event)) (s : AxisState)
    (lvx lvy : Option Int) (hx : inv_x acc s lvx) (hy : inv_y acc s lvy) :
    one_per_axis acc = true := by
  obtain ⟨x1, x2, _, _⟩ := hx
  obtain ⟨y1, y2, _, _⟩ := hy
  unfold one_per_axis
  have hxx : (held_after acc KEY_LEFT && held_after acc KEY_RIGHT) = false := by
    cases hl : held_after acc KEY_LEFT
    · rfl
    · cases hr : held_after acc KEY_RIGHT
      · rfl
      · have a := x1 hl
        have b := x2 hr
        rw [a] at b
        simp at b
  have hyy : (held_after acc KEY_UP && held_after acc KEY_DOWN) = false := by
    cases hl : held_after acc KEY_UP
    · rfl
    · cases hr : held_after acc KEY_DOWN
      · rfl
      · have a := y1 hl
        have b := y2 hr
        rw [a] at b
        simp at b
  rw [hxx, hyy]
  rfl

theorem one_per_axis_key_only (acc : List (Int × input_event)) (fd k v : Int) :
    one_per_axis (acc ++ [key_event fd k v])
      = one_per_axis (acc ++ [key_event fd k v, syn_event fd]) := by
  unfold one_per_axis
  simp only [held_after_key_only]

theorem one_per_axis_loop (fd : Int) (evs : List input_event) :
    ∀ (acc : List (Int × input_event)) (s : AxisState) (lvx lvy : Option Int),
      inv_x acc s lvx → inv_y acc s lvy →
      no_direct_reversal ABS_X lvx evs = true → no_direct_reversal ABS_Y lvy evs = true →
      ∀ p, p <+: loop_out fd s evs → one_per_axis (acc ++ p) = true := by
  induction evs with
  | nil =>
    intro acc s lvx lvy hx hy _ _ p hp
    simp only [loop_out, List.prefix_nil] at hp
    rw [hp, List.append_nil]
    exact one_per_axis_of_inv acc s lvx lvy hx hy
  | cons ev rest ih =>
    intro acc s lvx lvy hx hy hrx hry p hp
    simp only [no_direct_reversal, Bool.and_eq_true] at hrx hry
    have hx1 := inv_x_step fd acc s lvx ev hx hrx.1
    have hy1 := inv_y_step fd acc s lvy ev hy hry.1
    rw [loop_out] at hp
    rcases List.prefix_or_prefix_of_prefix hp (List.prefix_append _ _) with h | h
    · rcases dispatch_out_pair fd s ev with hd | ⟨k, v, _, hd⟩
      · rw [hd, List.prefix_nil] at h
        rw [h, List.append_nil]
        exact one_per_axis_of_inv acc s lvx lvy hx hy
      · rw [hd] at h hx1 hy1
        rcases prefix_pair _ _ p h with h1 | h1 | h1
        · rw [h1, List.append_nil]
          exact one_per_axis_of_inv acc s lvx lvy hx hy
        · rw [h1, one_per_axis_key_only]
          exact one_per_axis_of_inv _ _ _ _ hx1 hy1
        · rw [h1]
          exact one_per_axis_of_inv _ _ _ _ hx1 hy1
    · obtain ⟨q, hq⟩ := h
      rw [← hq] at hp ⊢
      rw [List.prefix_append_right_inj] at hp
      rw [← List.append_assoc]
      exact ih _ _ _ _ hx1 hy1 hrx.2 hry.2 q hp

/-- C6 as the code violates it: starting with no key held and every write
succeeding, the horizontal samples 255 and 0 leave a written stream after which
LEFT and RIGHT are both held. -/
theorem two_keys_held_counterexample :
    (∀ n, demo_env.write_ok n = true)
    ∧ World.init.written = []
    ∧ ∃ s1 w1 p,
        main_loop demo_env 0 4 [some (axis_sample ABS_X 255), some (axis_sample ABS_X 0)]
          { last_x_key := 0, last_y_key := 0 } World.init = .waiting s1 w1
        ∧ p <+: w1.written
        ∧ held_after p KEY_LEFT = true ∧ held_after p KEY_RIGHT = true
        ∧ one_per_axis p = false :=
  ⟨fun _ => rfl, rfl, _, _, _,
    main_loop_eq demo_env 0 4 (fun _ => rfl) [axis_sample ABS_X 255, axis_sample ABS_X 0]
      { last_x_key := 0, last_y_key := 0 } World.init,
    List.prefix_refl _, by decide, by decide, by decide⟩

/-- C6 amended: starting with no key held and every write succeeding, for every
sequence of events in which, on each axis, an extreme sample is never followed by
the opposite extreme sample without a centre sample of that axis in between,
after every prefix of the stream written to the virtual device at most one of
LEFT, RIGHT and at most one of UP, DOWN is held. -/
theorem one_key_per_axis (env : Env) (loglevel uinput_fd : Int) (s : AxisState) (w : World)
    (evs : List input_event)
    (hw : ∀ n, env.write_ok n = true)
    (hstart : w.written = [])
    (hx : no_direct_reversal ABS_X none evs = true)
    (hy : no_direct_reversal ABS_Y none evs = true) :
    ∃ s1 w1, main_loop env loglevel uinput_fd (evs.map some) s w = .waiting s1 w1
      ∧ ∀ p, p <+: w1.written → one_per_axis p = true := by
  refine ⟨_, _, main_loop_eq env loglevel uinput_fd hw evs s w, ?_⟩
  intro p hp
  have hp1 : p <+: loop_out uinput_fd s evs := by
    simpa [loop_world, hstart] using hp
  have hix : inv_x [] s none := by
    refine ⟨?_, ?_, ?_, ?_⟩ <;> intro h <;> simp [held_after] at h
  have hiy : inv_y [] s none := by
    refine ⟨?_, ?_, ?_, ?_⟩ <;> intro h <;> simp [held_after] at h
  simpa using one_per_axis_loop uinput_fd evs [] s none none hix hiy hx hy p hp1

/-- Instance of the amended C6 on the concrete system, with an axis state that
was never initialised to a key. -/
theorem one_key_per_axis_witness :
    (∀ n, demo_env.write_ok n = true)
    ∧ World.init.written = []
    ∧ no_direct_reversal ABS_X none
        [axis_sample ABS_X 127, axis_sample ABS_X 255, axis_sample ABS_Y 0,
         axis_sample ABS_X 127, axis_sample ABS_X 0, axis_sample ABS_Y 0] = true
    ∧ no_direct_reversal ABS_Y none
        [axis_sample ABS_X 127, axis_sample ABS_X 255, axis_sample ABS_Y 0,
         axis_sample ABS_X 127, axis_sample ABS_X 0, axis_sample ABS_Y 0] = true
    ∧ ∃ s1 w1,
        main_loop demo_env 0 4
          ([axis_sample ABS_X 127, axis_sample ABS_X 255, axis_sample ABS_Y 0,
            axis_sample ABS_X 127, axis_sample ABS_X 0, axis_sample ABS_Y 0].map some)
          { last_x_key := KEY_UP, last_y_key := 70000 } World.init = .waiting s1 w1
        ∧ ∀ p, p <+: w1.written → one_per_axis p = true :=
  ⟨fun _ => rfl, rfl, by decide, by decide,
    one_key_per_axis demo_env 0 4 { last_x_key := KEY_UP, last_y_key := 70000 } World.init
      [axis_sample ABS_X 127, axis_sample ABS_X 255, axis_sample ABS_Y 0,
       axis_sample ABS_X 127, axis_sample ABS_X 0, axis_sample ABS_Y 0]
      (fun _ => rfl) rfl (by decide) (by decide)⟩

end JsMapper
